import Mathlib

/-
Verification development for the autoRig rigging toolkit.

The repository is a set of Maya authoring utilities: six manager classes
(RigBuilder, SkinWeightManager, ObjectRenamer, JointDisplayManager,
AttributeLocker, AssetManager) that validate UI input and forward it to the
host command layer (maya.cmds).  We model the host as an explicit state:

  * a scene graph (named, typed nodes with parent pointers and an optional
    skin cluster), plus the current selection;
  * a trace of host commands issued (warnings, dialogs, prints, node
    creation, renames, attribute sets, ...);
  * a failure oracle: host commands that can raise (rename, setAttr,
    copySkinWeights, duplicate, parent, file save) consume one oracle tick
    and raise exactly when the oracle says so.  Query commands (ls,
    objExists, listRelatives, listHistory) and UI feedback commands
    (warning, confirmDialog, print) are modelled as total.

Python-level control effects are modelled explicitly: a try/except block
turns a raised host call into its handler; host calls issued outside any
try/except propagate as an `Except.error`.  Referencing an unbound local
(the missing else branch of show_display_mode) and iterating None (the
unguarded listRelatives result in create_fk_chain) are Python runtime
errors and are modelled as distinct `Except.error` outcomes.

Host naming conventions kept by the model: `cmds.duplicate` with
renameChildren appends a digit ("1") to every copied node name (this is
what makes the source refer to names such as rt_thigh_IK_jnt1); all other
creation and rename commands take the requested name as final (scenes in
the theorems below are clash-free).
-/

namespace AutoRig

/-- A Python-level error escaping an operation. -/
inductive HErr where
  /-- a host command raised and no handler was active -/
  | hostFailure
  /-- a local variable was referenced before assignment -/
  | unboundLocal
  /-- iteration over None (listRelatives returned no list) -/
  | noneIteration
deriving Repr, DecidableEq

/-- One host command, as recorded in the trace. -/
inductive Cmd where
  | warn (msg : String)
  | dialog (title msg : String)
  | printed (msg : String)
  | selectClear
  | jointCmd (name : String)
  | parentCmd (child newParent : String)
  | circleCmd (name : String)
  | groupCmd (target name : String)
  | matchTransformCmd (a b : String)
  | parentConstraintCmd (a b : String)
  | duplicateCmd (root : String)
  | renameCmd (old new : String)
  | setDrawStyleCmd (joint : String) (v : Nat)
  | setAttrFlagsCmd (plug : String) (lockF keyF cbF : Bool)
  | copySkinCmd (ss ds : String)
  | hideCmd (n : String)
  | showHiddenCmd (n : String)
  | ikHandleCmd (sj ee : String)
  | fileRenameCmd (path : String)
  | fileSaveCmd (ftype : String)
deriving Repr, DecidableEq

/-- A scene-graph node: name, node type, parent pointer, and the skin
cluster that `listHistory` would reveal on it (if any). -/
structure Node where
  name : String
  ntype : String
  parent : Option String
  skin : Option String := none
deriving Repr, DecidableEq

/-- The host scene: nodes in creation order, plus the active selection. -/
structure Scene where
  nodes : List Node
  selection : List String
deriving Repr, DecidableEq

def Scene.objExists (s : Scene) (n : String) : Bool :=
  s.nodes.any (fun x => x.name = n)

def Scene.findNode (s : Scene) (n : String) : Option Node :=
  s.nodes.find? (fun x => x.name = n)

/-- `cmds.ls(type=t)` -/
def Scene.lsType (s : Scene) (t : String) : List String :=
  (s.nodes.filter (fun x => x.ntype = t)).map (fun x => x.name)

/-- Suffix test on strings, via the underlying character lists (kept
kernel-reducible for concrete evaluation). -/
def strEndsWith (s suf : String) : Bool :=
  suf.data.isSuffixOf s.data

/-- Fuel-driven worker for `strReplace`; the fuel starts at the length of
the subject so it never runs out. -/
def replFuel (pat rep : List Char) : Nat → List Char → List Char
  | _, [] => []
  | 0, s => s
  | fuel + 1, c :: rest =>
    if pat.isPrefixOf (c :: rest) then
      rep ++ replFuel pat rep fuel (rest.drop (pat.length - 1))
    else c :: replFuel pat rep fuel rest

/-- Python `str.replace(pat, rep)`: replace every occurrence of `pat`,
scanning left to right (kernel-reducible model of String.replace). -/
def strReplace (s pat rep : String) : String :=
  if pat.data.isEmpty then s
  else ⟨replFuel pat.data rep.data s.data.length s.data⟩

/-- Python `str.strip()`: drop whitespace from both ends (kernel-reducible
model of String.trim). -/
def pyStrip (s : String) : String :=
  ⟨((s.data.dropWhile Char.isWhitespace).reverse.dropWhile
      Char.isWhitespace).reverse⟩

/-- `cmds.ls("*" + suf)`: wildcard match on a name ending. -/
def Scene.lsEnding (s : Scene) (suf : String) : List String :=
  (s.nodes.filter (fun x => strEndsWith x.name suf)).map (fun x => x.name)

/-- `cmds.ls(sl=True, type=t)` -/
def Scene.lsSelType (s : Scene) (t : String) : List String :=
  s.selection.filter (fun n =>
    match s.findNode n with
    | some x => x.ntype = t
    | none => false)

/-- `cmds.rename(old, new)`: the node takes the new name and children
pointing at the old name follow. -/
def Scene.renameNode (s : Scene) (old new : String) : Scene :=
  { s with nodes := s.nodes.map (fun x =>
      let x1 := if x.name = old then { x with name := new } else x
      if x1.parent = some old then { x1 with parent := some new } else x1) }

def Scene.addNode (s : Scene) (n : Node) : Scene :=
  { s with nodes := s.nodes ++ [n] }

def Scene.setParent (s : Scene) (child : String) (p : Option String) : Scene :=
  { s with nodes := s.nodes.map (fun x =>
      if x.name = child then { x with parent := p } else x) }

def Scene.childrenOf (s : Scene) (p : String) : List String :=
  (s.nodes.filter (fun x => x.parent = some p)).map (fun x => x.name)

/-- Descendants of a node in preorder (parents before children), with fuel. -/
def Scene.descAux (s : Scene) : Nat → String → List String
  | 0, _ => []
  | fuel + 1, p => (s.childrenOf p).flatMap (fun c => c :: s.descAux fuel c)

/-- All descendants of `root` whose type is `ty`, parents before children. -/
def Scene.preDesc (s : Scene) (root ty : String) : List String :=
  (s.descAux s.nodes.length root).filter (fun n =>
    match s.findNode n with
    | some x => x.ntype = ty
    | none => false)

/-- `cmds.listRelatives(root, ad=True, type=ty)`: the host returns the
descendants deepest-first (reverse preorder) and returns None (here:
`none`) when there are no matches. -/
def Scene.listRelAD (s : Scene) (root ty : String) : Option (List String) :=
  let l := (s.preDesc root ty).reverse
  if l.isEmpty then none else some l

/-- `cmds.listRelatives(n, parent=True, type="joint")`, collapsed to the
single optional parent joint. -/
def Scene.parentJoint (s : Scene) (n : String) : Option String :=
  match s.findNode n with
  | some x =>
    match x.parent with
    | some p =>
      match s.findNode p with
      | some px => if px.ntype = "joint" then some p else none
      | none => none
    | none => none
  | none => none

/-- `cmds.duplicate(root, renameChildren=True)`: copies the whole subtree;
every copied node gets its name with "1" appended (the host digit-suffix
convention); parent pointers inside the subtree are remapped.  Returns the
new scene and the name of the copied root. -/
def Scene.duplicateTree (s : Scene) (root : String) : Scene × String :=
  let sub := root :: s.descAux s.nodes.length root
  let copies := (s.nodes.filter (fun x => sub.contains x.name)).map (fun x =>
    { x with
      name := x.name ++ "1",
      parent := match x.parent with
        | some p => if sub.contains p then some (p ++ "1") else some p
        | none => none })
  ({ s with nodes := s.nodes ++ copies }, root ++ "1")

/-- The host state threaded through an operation: scene, command trace, and
the number of fallible host calls issued so far (the oracle position). -/
structure Host where
  scene : Scene
  trace : List Cmd
  ctr : Nat
deriving Repr, DecidableEq

/-- The failure oracle: `f k = true` means the k-th fallible host call of
the run raises. -/
abbrev Oracle := Nat → Bool

/-- Record a total host command with no scene effect. -/
def Host.emit (h : Host) (c : Cmd) : Host :=
  { h with trace := h.trace ++ [c] }

/-- `cmds.warning(msg)` -/
def Host.warnCmd (h : Host) (m : String) : Host :=
  h.emit (.warn m)

/-- Record a total host command together with its scene effect. -/
def Host.doCmd (h : Host) (c : Cmd) (eff : Scene → Scene) : Host :=
  { h with trace := h.trace ++ [c], scene := eff h.scene }

/-- A fallible host command: consumes one oracle tick; on success the
command is recorded and its scene effect applied, on failure nothing
happens beyond the tick. -/
def Host.tryCmd (h : Host) (f : Oracle) (c : Cmd) (eff : Scene → Scene) :
    Host × Bool :=
  if f h.ctr then
    ({ h with ctr := h.ctr + 1 }, false)
  else
    ({ scene := eff h.scene, trace := h.trace ++ [c], ctr := h.ctr + 1 }, true)

/-- Python dict read (`d.get(k)`): the first binding of the key. -/
def dictGet : List (String × String) → String → Option String
  | [], _ => none
  | (k0, v0) :: d, q => if q = k0 then some v0 else dictGet d q

/-- Python dict write (`d[k] = v`): overwrite the binding if the key is
present, append it otherwise. -/
def dictSet : List (String × String) → String → String → List (String × String)
  | [], k, v => [(k, v)]
  | (k0, v0) :: d, k, v =>
    if k0 = k then (k, v) :: d else (k0, v0) :: dictSet d k v

/-! ## SkinWeightManager (src/AUTORIG/skinWeightMGMT.py) -/

/-- `SkinWeightManager.__init__`: the default target list. -/
structure SkinWeightManager where
  target_objects : List String := ["two", "three", "four"]
deriving Repr, DecidableEq

/-- Python `target_list or self.target_objects`: the default target list
is selected both for None and for an empty list (both falsy). -/
def targetsOf (m : SkinWeightManager) (tl : Option (List String)) : List String :=
  match tl with
  | none => m.target_objects
  | some l => if l.isEmpty then m.target_objects else l

/-- The success dialog text of copy_weights. -/
def copyMsg (cnt : Nat) : String :=
  s!"Skin weights copied successfully to {cnt} objects!"

/-- The success dialog text of rename_objects. -/
def renMsg (cnt : Nat) : String :=
  s!"Successfully renamed {cnt} objects!"

/-- The print text of toggle_joint_display: the action, the number of
joints in the processed list (not the number of successes), the scope. -/
def togMsg (vis so : Bool) (n : Nat) : String :=
  let act := if vis then "Shown" else "Hidden"
  let scope := if so then "selected" else "all"
  s!"{act} {n} {scope} joints"

/-- The print text of lock_unlock_attributes. -/
def lockMsg (lk : Bool) (cnt : Nat) : String :=
  let act := if lk then "locked" else "unlocked"
  s!"Successfully {act} attributes on {cnt} objects"

/-- `SkinWeightManager.get_skin_cluster`: listHistory then ls
type=skinCluster, first hit or None. -/
def get_skin_cluster (s : Scene) (obj : String) : Option String :=
  match s.findNode obj with
  | some x => x.skin
  | none => none

/-- The target loop of `copy_weights` (lines 34-48): per-target existence
and skin checks, then `copySkinWeights` inside try/except; each failure
warns and the loop continues; `success_count` is threaded. -/
def copyLoop (f : Oracle) (srcSkin : String) :
    List String → Host → Nat → Host × Nat
  | [], h, cnt => (h, cnt)
  | t :: rest, h, cnt =>
    if ¬ h.scene.objExists t then
      copyLoop f srcSkin rest
        (h.warnCmd s!"Target object {t} does not exist. Skipping.") cnt
    else
      match get_skin_cluster h.scene t with
      | none =>
        copyLoop f srcSkin rest
          (h.warnCmd s!"No skinCluster found on {t}. Skipping.") cnt
      | some dest =>
        match h.tryCmd f (.copySkinCmd srcSkin dest) (fun s => s) with
        | (h1, true) => copyLoop f srcSkin rest h1 (cnt + 1)
        | (h1, false) =>
          copyLoop f srcSkin rest
            (h1.warnCmd s!"Failed to copy weights to {t}: host error") cnt

/-- `SkinWeightManager.copy_weights`.  `target_list` is the optional
Python argument; Python `target_list or self.target_objects` selects the
default both for None and for an empty list. -/
def copy_weights (m : SkinWeightManager) (f : Oracle) (source_obj : String)
    (target_list : Option (List String)) (h : Host) :
    Except HErr (Host × Bool) :=
  if source_obj = "" then
    .ok (h.warnCmd "No source object specified", false)
  else if ¬ h.scene.objExists source_obj then
    .ok (h.warnCmd s!"Source object {source_obj} does not exist", false)
  else
    match get_skin_cluster h.scene source_obj with
    | none => .ok (h.warnCmd s!"No skinCluster found on {source_obj}", false)
    | some source_skin =>
      let targets := targetsOf m target_list
      let pr := copyLoop f source_skin targets h 0
      let h1 := pr.1
      let cnt := pr.2
      let h2 := if 0 < cnt then
          h1.emit (.dialog "Copy Skin Weights" (copyMsg cnt))
        else h1
      .ok (h2, decide (0 < cnt))

/-! ## ObjectRenamer (src/AUTORIG/ObjRenamer.py) -/

/-- The rename loop of `rename_objects` (lines 20-29): each rename is
inside try/except; a failure warns and the loop continues.  `pre` is the
is_prefix argument of the source. -/
def renLoop (f : Oracle) (nm : String) (pre : Bool) :
    List String → Host → Nat → Host × Nat
  | [], h, cnt => (h, cnt)
  | obj :: rest, h, cnt =>
    let new_name := if pre then nm ++ "_" ++ obj else obj ++ "_" ++ nm
    match h.tryCmd f (.renameCmd obj new_name)
        (fun s => s.renameNode obj new_name) with
    | (h1, true) => renLoop f nm pre rest h1 (cnt + 1)
    | (h1, false) =>
      renLoop f nm pre rest
        (h1.warnCmd s!"Failed to rename {obj}: host error") cnt

/-- `ObjectRenamer.rename_objects` (the class holds no fields). -/
def rename_objects (f : Oracle) (name_input : String) (pre : Bool)
    (h : Host) : Except HErr (Host × Bool) :=
  let sel := h.scene.selection
  if sel.isEmpty then
    .ok (h.warnCmd "No objects selected.", false)
  else if pyStrip name_input = "" then
    .ok (h.warnCmd "No name input provided.", false)
  else
    let nm := pyStrip name_input
    let pr := renLoop f nm pre sel h 0
    let h1 := pr.1
    let cnt := pr.2
    let h2 := if 0 < cnt then
        h1.emit (.dialog "Rename Objects" (renMsg cnt))
      else h1
    .ok (h2, decide (0 < cnt))

/-! ## JointDisplayManager (src/AUTORIG/JointDisplayMGMT.py) -/

/-- The setAttr loop of `toggle_joint_display` (lines 18-22): each
drawStyle set is inside try/except; a failure warns and the loop
continues.  No success count is kept by the source. -/
def togLoop (f : Oracle) (ds : Nat) : List String → Host → Host
  | [], h => h
  | j :: rest, h =>
    match h.tryCmd f (.setDrawStyleCmd j ds) (fun s => s) with
    | (h1, true) => togLoop f ds rest h1
    | (h1, false) =>
      togLoop f ds rest
        (h1.warnCmd s!"Failed to set display for {j}: host error")

/-- `JointDisplayManager.toggle_joint_display`.  `vis` is the source
argument named show.  Note the source prints the number of joints in the
list and returns True unconditionally on this path. -/
def toggle_joint_display (f : Oracle) (vis selected_only : Bool) (h : Host) :
    Except HErr (Host × Bool) :=
  let draw_style : Nat := if vis then 0 else 2
  let joints := if selected_only then h.scene.lsSelType "joint"
                else h.scene.lsType "joint"
  if selected_only ∧ joints.isEmpty then
    .ok (h.warnCmd "No joints selected.", false)
  else
    let h1 := togLoop f draw_style joints h
    .ok (h1.emit (.printed (togMsg vis selected_only joints.length)), true)

/-! ## AttributeLocker (src/AUTORIG/attributeLocker.py) -/

/-- `AttributeLocker.__init__`: the attribute-group dictionary. -/
structure AttributeLocker where
  attributes : List (String × List String) :=
    [("Translate", [".translateX", ".translateY", ".translateZ"]),
     ("Rotate", [".rotateX", ".rotateY", ".rotateZ"]),
     ("Scale", [".scaleX", ".scaleY", ".scaleZ"])]
deriving Repr, DecidableEq

def lockerAttrs (m : AttributeLocker) (k : String) : List String :=
  ((m.attributes.lookup k).getD [])

/-- The inner attribute loop of `lock_unlock_attributes` (lines 33-35):
the try block wraps the whole inner for, so the first failing setAttr
aborts the remaining attributes of this object. -/
def setAttrsOnObj (f : Oracle) (lk : Bool) (obj : String) :
    List String → Host → Host × Bool
  | [], h => (h, true)
  | a :: rest, h =>
    match h.tryCmd f (.setAttrFlagsCmd (obj ++ a) lk (!lk) (!lk))
        (fun s => s) with
    | (h1, true) => setAttrsOnObj f lk obj rest h1
    | (h1, false) => (h1, false)

/-- The object loop of `lock_unlock_attributes` (lines 31-38). -/
def lockLoop (f : Oracle) (lk : Bool) (attrs : List String) :
    List String → Host → Nat → Host × Nat
  | [], h, cnt => (h, cnt)
  | obj :: rest, h, cnt =>
    match setAttrsOnObj f lk obj attrs h with
    | (h1, true) => lockLoop f lk attrs rest h1 (cnt + 1)
    | (h1, false) =>
      lockLoop f lk attrs rest
        (h1.warnCmd s!"Failed to modify attributes on {obj}: host error") cnt

/-- `AttributeLocker.lock_unlock_attributes`. -/
def lock_unlock_attributes (m : AttributeLocker) (f : Oracle)
    (lk translate rotate scale : Bool) (h : Host) :
    Except HErr (Host × Bool) :=
  let sel := h.scene.selection
  if sel.isEmpty then
    .ok (h.warnCmd "No objects selected.", false)
  else
    let attr_groups :=
      (if translate then lockerAttrs m "Translate" else []) ++
      (if rotate then lockerAttrs m "Rotate" else []) ++
      (if scale then lockerAttrs m "Scale" else [])
    if attr_groups.isEmpty then
      .ok (h.warnCmd "No attributes specified.", false)
    else
      let pr := lockLoop f lk attr_groups sel h 0
      let h1 := pr.1
      let cnt := pr.2
      let h2 := if 0 < cnt then
          h1.emit (.printed (lockMsg lk cnt))
        else h1
      .ok (h2, decide (0 < cnt))

/-! ## AssetManager (src/AUTORIG/AssetMGMT.py) -/

/-- `AssetManager.__init__`: the asset directory (os.path.expanduser is
modelled as the identity on the literal). -/
structure AssetManager where
  filepath : String := "~/onedrive/Documents/maya/scripts/Asset/"
deriving Repr, DecidableEq

/-- `AssetManager.save_asset`: the file rename and save are inside one
try/except whose handler warns and returns False. -/
def save_asset (m : AssetManager) (f : Oracle) (asset_name file_type : String)
    (h : Host) : Except HErr (Host × Bool) :=
  if pyStrip asset_name = "" then
    .ok (h.warnCmd "No asset name provided.", false)
  else
    let name := pyStrip asset_name
    let full_path := m.filepath ++ name
    match h.tryCmd f (.fileRenameCmd full_path) (fun s => s) with
    | (h1, false) => .ok (h1.warnCmd "Failed to save asset: host error", false)
    | (h1, true) =>
      let ftype := if file_type = "MA" then "mayaAscii" else "mayaBinary"
      match h1.tryCmd f (.fileSaveCmd ftype) (fun s => s) with
      | (h2, false) =>
        .ok (h2.warnCmd "Failed to save asset: host error", false)
      | (h2, true) =>
        let ext := if file_type = "MA" then ".ma" else ".mb"
        .ok (h2.emit (.dialog "Asset Saved"
          s!"Asset saved successfully:\n{full_path}{ext}"), true)

/-! ## RigBuilder (src/AUTORIG/RigBuilder.py) -/

/-- `RigBuilder.__init__`: the only field, the FK control dictionary. -/
structure RigBuilder where
  fk_ctrls : List (String × String) := []
deriving Repr, DecidableEq

/-- `RigBuilder.joint_creation`: select(clear), create the joint named
name + "_drv_jnt", optionally parent it (a fallible host call outside any
try/except, so its failure propagates).  Returns the created name as
`cmds.joint` does. -/
def joint_creation (f : Oracle) (name : String) (pos : Rat × Rat × Rat)
    (parent_name : Option String) (h : Host) : Except HErr (Host × String) :=
  let _ := pos
  let h := h.emit .selectClear
  let j := name ++ "_drv_jnt"
  let h := h.doCmd (.jointCmd j) (fun s => s.addNode ⟨j, "joint", none, none⟩)
  match parent_name with
  | some p =>
    match h.tryCmd f (.parentCmd j p) (fun s => s.setParent j (some p)) with
    | (h1, true) => .ok (h1, j)
    | (_, false) => .error .hostFailure
  | none => .ok (h, j)

/-- `RigBuilder.setup_control`: circle, two groups, matchTransform,
parentConstraint (all modelled total: pure creation commands).  The
constraint node itself is not tracked.  Returns the group name. -/
def setup_control (jnt : String) (h : Host) : Host × String :=
  let ctrl := strReplace jnt "_jnt" "_CTRL"
  let h := h.doCmd (.circleCmd ctrl)
    (fun s => s.addNode ⟨ctrl, "transform", none, none⟩)
  let offset := strReplace jnt "_jnt" "_offset"
  let h := h.doCmd (.groupCmd ctrl offset)
    (fun s => (s.addNode ⟨offset, "transform", none, none⟩).setParent ctrl
      (some offset))
  let grp := strReplace jnt "_jnt" "_GRP"
  let h := h.doCmd (.groupCmd offset grp)
    (fun s => (s.addNode ⟨grp, "transform", none, none⟩).setParent offset
      (some grp))
  let h := h.emit (.matchTransformCmd grp jnt)
  let h := h.emit (.parentConstraintCmd ctrl jnt)
  (h, grp)

/-- The child-rename loop of `create_fk_chain` (lines 67-68): each rename
is a raw host call (no try/except), so a failure propagates. -/
def renameFkChildren (f : Oracle) : List String → Host → Except HErr Host
  | [], h => .ok h
  | j :: rest, h =>
    match h.tryCmd f (.renameCmd j (strReplace j "_drv_jnt" "_FK_jnt"))
        (fun s => s.renameNode j (strReplace j "_drv_jnt" "_FK_jnt")) with
    | (h1, true) => renameFkChildren f rest h1
    | (_, false) => .error .hostFailure

/-- The body of the FK control loop (lines 76-90) for one joint:
circle/offset/group/matchTransform/parentConstraint, the parent-joint
lookup against `fk_ctrls`, the optional `cmds.parent` (raw, so a failure
propagates), and the dictionary update. -/
def fkCtrlStep (rb : RigBuilder) (f : Oracle) (jnt : String) (h : Host) :
    Except HErr (RigBuilder × Host) :=
  let base := strReplace jnt "_FK_jnt" ""
  let ctrl := base ++ "_CTRL"
  let h := h.doCmd (.circleCmd ctrl)
    (fun s => s.addNode ⟨ctrl, "transform", none, none⟩)
  let offset := base ++ "_offset"
  let h := h.doCmd (.groupCmd ctrl offset)
    (fun s => (s.addNode ⟨offset, "transform", none, none⟩).setParent ctrl
      (some offset))
  let grp := base ++ "_GRP"
  let h := h.doCmd (.groupCmd offset grp)
    (fun s => (s.addNode ⟨grp, "transform", none, none⟩).setParent offset
      (some grp))
  let h := h.emit (.matchTransformCmd grp jnt)
  let h := h.emit (.parentConstraintCmd ctrl jnt)
  let step :=
    match h.scene.parentJoint jnt with
    | some p =>
      match dictGet rb.fk_ctrls (strReplace p "_FK_jnt" "") with
      | some pc => h.tryCmd f (.parentCmd grp pc)
          (fun s => s.setParent grp (some pc))
      | none => (h, true)
    | none => (h, true)
  match step with
  | (h2, true) => .ok ({ fk_ctrls := dictSet rb.fk_ctrls base ctrl }, h2)
  | (_, false) => .error .hostFailure

/-- The FK control loop of `create_fk_chain` over the processed joint
list. -/
def fkCtrlLoop (f : Oracle) :
    RigBuilder → List String → Host → Except HErr (RigBuilder × Host)
  | rb, [], h => .ok (rb, h)
  | rb, j :: rest, h =>
    match fkCtrlStep rb f j h with
    | .ok (rb1, h1) => fkCtrlLoop f rb1 rest h1
    | .error e => .error e

/-- The joint list processed by the FK control loop (lines 71-73): the
descendants (or []), the root appended, then the list reversed. -/
def fkJointsOf (s : Scene) : List String :=
  (((s.listRelAD "spine_FK_jnt" "joint").getD []) ++ ["spine_FK_jnt"]).reverse

/-- `RigBuilder.create_fk_chain`.  The duplicate and renames are raw host
calls; iterating the unguarded `listRelatives` result raises when it is
None (no child joints). -/
def create_fk_chain (rb : RigBuilder) (f : Oracle) (h : Host) :
    Except HErr (RigBuilder × Host) :=
  if ¬ h.scene.objExists "spine_drv_jnt" then
    .ok (rb, h.warnCmd "No base skeleton found. Create skeleton first.")
  else
    match h.tryCmd f (.duplicateCmd "spine_drv_jnt")
        (fun s => (s.duplicateTree "spine_drv_jnt").1) with
    | (_, false) => .error .hostFailure
    | (h1, true) =>
      -- the host names the copy with a digit appended
      let fk_root0 := "spine_drv_jnt1"
      match h1.tryCmd f (.renameCmd fk_root0 "spine_FK_jnt")
          (fun s => s.renameNode fk_root0 "spine_FK_jnt") with
      | (_, false) => .error .hostFailure
      | (h2, true) =>
        match h2.scene.listRelAD "spine_FK_jnt" "joint" with
        | none => .error .noneIteration
        | some js =>
          match renameFkChildren f js h2 with
          | .error e => .error e
          | .ok h3 => fkCtrlLoop f rb (fkJointsOf h3.scene) h3

/-- The rename loop of `create_ik_setup` (lines 106-108) over the
duplicated joints including the root; raw host calls.  Renaming the root
to its own name (no "_drv_jnt" occurrence) is modelled as a no-op
success. -/
def renameIkJoints (f : Oracle) : List String → Host → Except HErr Host
  | [], h => .ok h
  | j :: rest, h =>
    match h.tryCmd f (.renameCmd j (strReplace j "_drv_jnt" "_IK_jnt"))
        (fun s => s.renameNode j (strReplace j "_drv_jnt" "_IK_jnt")) with
    | (h1, true) => renameIkJoints f rest h1
    | (_, false) => .error .hostFailure

/-- One limb of `create_ik_setup` (lines 119-125): guarded by objExists on
both ends; ikHandle creation (the host names it ikHandle1), a raw rename,
setup_control, and the optional raw parent. -/
def ikLimbStep (f : Oracle) (start_jnt end_jnt handle_name : String)
    (h : Host) : Except HErr Host :=
  if h.scene.objExists start_jnt ∧ h.scene.objExists end_jnt then
    let h := h.doCmd (.ikHandleCmd start_jnt end_jnt)
      (fun s => s.addNode ⟨"ikHandle1", "ikHandle", none, none⟩)
    match h.tryCmd f (.renameCmd "ikHandle1" handle_name)
        (fun s => s.renameNode "ikHandle1" handle_name) with
    | (_, false) => .error .hostFailure
    | (h1, true) =>
      let (h2, _grp) := setup_control end_jnt h1
      let ctrl_name := strReplace end_jnt "_jnt1" "_CTRL1"
      if h2.scene.objExists ctrl_name then
        match h2.tryCmd f (.parentCmd handle_name ctrl_name)
            (fun s => s.setParent handle_name (some ctrl_name)) with
        | (h3, true) => .ok h3
        | (_, false) => .error .hostFailure
      else .ok h2
  else .ok h

/-- The limb list of `create_ik_setup` (lines 112-117). -/
def ikLimbs : List (String × String × String) :=
  [("rt_thigh_IK_jnt1", "rt_ankle_IK_jnt1", "rt_leg_IKHandle"),
   ("lt_thigh_IK_jnt1", "lt_ankle_IK_jnt1", "lt_leg_IKHandle"),
   ("rt_shoulder_IK_jnt1", "rt_wrist_IK_jnt1", "rt_arm_IKHandle"),
   ("lt_shoulder_IK_jnt1", "lt_wrist_IK_jnt1", "lt_arm_IKHandle")]

def ikLimbLoop (f : Oracle) :
    List (String × String × String) → Host → Except HErr Host
  | [], h => .ok h
  | (sj, ej, hn) :: rest, h =>
    match ikLimbStep f sj ej hn h with
    | .ok h1 => ikLimbLoop f rest h1
    | .error e => .error e

/-- `RigBuilder.create_ik_setup`.  It reads no RigBuilder field and writes
none; the manager is returned unchanged. -/
def create_ik_setup (rb : RigBuilder) (f : Oracle) (h : Host) :
    Except HErr (RigBuilder × Host) :=
  if ¬ h.scene.objExists "spine_drv_jnt" then
    .ok (rb, h.warnCmd "No base skeleton found. Create skeleton first.")
  else
    match h.tryCmd f (.duplicateCmd "spine_drv_jnt")
        (fun s => (s.duplicateTree "spine_drv_jnt").1) with
    | (_, false) => .error .hostFailure
    | (h1, true) =>
      let ik_root0 := "spine_drv_jnt1"
      match h1.tryCmd f (.renameCmd ik_root0 "spine_IK_jnt")
          (fun s => s.renameNode ik_root0 "spine_IK_jnt") with
      | (_, false) => .error .hostFailure
      | (h2, true) =>
        let ik_joints :=
          ((h2.scene.listRelAD "spine_IK_jnt" "joint").getD []) ++
            ["spine_IK_jnt"]
        match renameIkJoints f ik_joints h2 with
        | .error e => .error e
        | .ok h3 =>
          match ikLimbLoop f ikLimbs h3 with
          | .error e => .error e
          | .ok h4 => .ok (rb, h4)

/-- The hide/show loops of `show_display_mode`. -/
def hideLoop (h : Host) : List String → Host
  | [] => h
  | n :: rest =>
    if h.scene.objExists n then hideLoop (h.emit (.hideCmd n)) rest
    else hideLoop h rest

def showLoop (h : Host) : List String → Host
  | [] => h
  | n :: rest =>
    if h.scene.objExists n then showLoop (h.emit (.showHiddenCmd n)) rest
    else showLoop h rest

/-- `RigBuilder.show_display_mode` (lines 126-148).  The if/elif chain on
`mode` has no else branch: for any other mode the later read of
nodes_to_show raises UnboundLocalError, modelled as `.error
.unboundLocal`. -/
def show_display_mode (mode : String) (h : Host) : Except HErr Host :=
  let all_nodes :=
    h.scene.lsEnding "_drv_jnt" ++ h.scene.lsEnding "_FK_jnt" ++
    h.scene.lsEnding "_IK_jnt" ++ h.scene.lsEnding "_CTRL" ++
    h.scene.lsEnding "_GRP" ++ h.scene.lsEnding "_offset" ++
    h.scene.lsEnding "_IKHandle"
  let h := hideLoop h all_nodes
  match mode with
  | "base" => .ok (showLoop h (h.scene.lsEnding "_drv_jnt"))
  | "fk" =>
    .ok (showLoop h
      (h.scene.lsEnding "_FK_jnt" ++ h.scene.lsEnding "_CTRL" ++
       h.scene.lsEnding "_GRP" ++ h.scene.lsEnding "_offset"))
  | "ik" =>
    .ok (showLoop h
      (h.scene.lsEnding "_IK_jnt" ++ h.scene.lsEnding "_CTRL" ++
       h.scene.lsEnding "_GRP" ++ h.scene.lsEnding "_offset" ++
       h.scene.lsEnding "_IKHandle"))
  | _ => .error .unboundLocal

/-! ## Concrete fixtures used by witnesses and counterexamples -/

/-- The oracle under which no fallible host call raises. -/
def oracle0 : Oracle := fun _ => false

/-- The oracle under which every fallible host call raises. -/
def oracle1 : Oracle := fun _ => true

/-- An empty host: no nodes, no selection, empty trace. -/
def host0 : Host := { scene := { nodes := [], selection := [] }, trace := [], ctr := 0 }

/-- A two-joint drive skeleton: spine_drv_jnt with child hip_drv_jnt. -/
def sceneSkel : Scene :=
  { nodes := [⟨"spine_drv_jnt", "joint", none, none⟩,
              ⟨"hip_drv_jnt", "joint", some "spine_drv_jnt", none⟩],
    selection := [] }

def hostSkel : Host := { scene := sceneSkel, trace := [], ctr := 0 }

/-- A drive skeleton with no child joints under the root. -/
def hostLonely : Host :=
  { scene := { nodes := [⟨"spine_drv_jnt", "joint", none, none⟩], selection := [] },
    trace := [], ctr := 0 }

/-- Four skinned meshes named as the default copy targets expect. -/
def sceneSkins : Scene :=
  { nodes := [⟨"one", "mesh", none, some "oneSkin"⟩,
              ⟨"two", "mesh", none, some "twoSkin"⟩,
              ⟨"three", "mesh", none, some "threeSkin"⟩,
              ⟨"four", "mesh", none, some "fourSkin"⟩],
    selection := [] }

def hostSkins : Host := { scene := sceneSkins, trace := [], ctr := 0 }

/-- The message warned by both chain builders when the drive skeleton is
missing. -/
def noSkelMsg : String := "No base skeleton found. Create skeleton first."

/-! ## C9: falsy target list falls back to the default targets -/

/-- The trace of a copy_weights run with an explicitly empty target list
on four skinned meshes. -/
def copyEmptyListTrace : List Cmd :=
  match copy_weights {} oracle0 "one" (some []) hostSkins with
  | .ok (h, _) => h.trace
  | .error _ => []

/-! ## C1: batch loops - counterexample and amended statement -/

/-- The number of drawStyle sets recorded in a trace. -/
def countDrawStyle (l : List Cmd) : Nat :=
  l.countP fun c => match c with
    | .setDrawStyleCmd _ _ => true
    | _ => false

/-! ## C8: manager state - counterexample -/

/-- The fk_ctrls dictionary after running create_fk_chain on the
two-joint skeleton with a fresh manager. -/
def fkCtrlsAfterSkel : List (String × String) :=
  match create_fk_chain {} oracle0 hostSkel with
  | .ok (rb1, _) => rb1.fk_ctrls
  | .error _ => []

/-! ## Per-item characterizations of the four batch loops -/

def isRenameCmd : Cmd → Bool
  | .renameCmd _ _ => true
  | _ => false

def isCopyCmd : Cmd → Bool
  | .copySkinCmd _ _ => true
  | _ => false

/-- What the rename loop records for one selected object: the rename with
the prefixed/suffixed new name, or the failure warning. -/
def renItem (nm : String) (pre : Bool) (obj : String) (c : Cmd) : Prop :=
  c = .renameCmd obj (if pre then nm ++ "_" ++ obj else obj ++ "_" ++ nm) ∨
  c = .warn s!"Failed to rename {obj}: host error"

/-- What the copy loop records for one target: a skip warning (missing
object or missing skin cluster), the copy, or the failure warning. -/
def copyItem (s : Scene) (ss : String) (t : String) (c : Cmd) : Prop :=
  (s.objExists t = false ∧ c = .warn s!"Target object {t} does not exist. Skipping.") ∨
  (get_skin_cluster s t = none ∧ c = .warn s!"No skinCluster found on {t}. Skipping.") ∨
  (∃ ds, get_skin_cluster s t = some ds ∧ c = .copySkinCmd ss ds) ∨
  c = .warn s!"Failed to copy weights to {t}: host error"

/-- What the joint-display loop records for one joint: the drawStyle set
or the failure warning. -/
def togItem (ds : Nat) (j : String) (c : Cmd) : Prop :=
  c = .setDrawStyleCmd j ds ∨
  c = .warn s!"Failed to set display for {j}: host error"

/-- The shape of the trace extension produced by the object loop of
lock_unlock_attributes: one block per selected object, either a full run
of setAttr commands with flags (lock, not lock, not lock), or a strict
prefix of them followed by the failure warning; the Nat counts the fully
processed objects. -/
inductive LockExt (lk : Bool) (attrs : List String) :
    List String → List Cmd → Nat → Prop where
  | nil : LockExt lk attrs [] [] 0
  | allOk (obj : String) {objs : List String} {ext : List Cmd} {n : Nat} :
      LockExt lk attrs objs ext n →
      LockExt lk attrs (obj :: objs)
        ((attrs.map fun a => Cmd.setAttrFlagsCmd (obj ++ a) lk (!lk) (!lk)) ++ ext)
        (n + 1)
  | failedAt (obj : String) (k : Nat) {objs : List String} {ext : List Cmd}
      {n : Nat} :
      k < attrs.length →
      LockExt lk attrs objs ext n →
      LockExt lk attrs (obj :: objs)
        (((attrs.take k).map fun a => Cmd.setAttrFlagsCmd (obj ++ a) lk (!lk) (!lk)) ++
          Cmd.warn s!"Failed to modify attributes on {obj}: host error" :: ext) n

/-- The AttributeLocker as constructed by its __init__. -/
def locker0 : AttributeLocker := {}

/-- The attribute list assembled from the three group flags. -/
def enabledAttrs (t r sc : Bool) : List String :=
  (if t then [".translateX", ".translateY", ".translateZ"] else []) ++
  (if r then [".rotateX", ".rotateY", ".rotateZ"] else []) ++
  (if sc then [".scaleX", ".scaleY", ".scaleZ"] else [])

/-- Two plain transforms, both selected. -/
def hostSel : Host :=
  { scene := { nodes := [⟨"a", "transform", none, none⟩,
                         ⟨"b", "transform", none, none⟩],
               selection := ["a", "b"] },
    trace := [], ctr := 0 }

/-! ## C10: processing order of the FK control loop -/

/-- The processed prefix `seen` always contains the parent joint (in the
scene `s0`) of each joint before it is reached: the Boolean form of
"each parent precedes its children in the processed order". -/
def parentsFirstAux (s0 : Scene) : List String → List String → Bool
  | _, [] => true
  | seen, j :: rest =>
    (match s0.parentJoint j with
     | some p => seen.contains p
     | none => true) && parentsFirstAux s0 (seen ++ [j]) rest

/-- No joint in the list collides with a control, offset or group name
derived from any joint of the list (FK joint names end in _FK_jnt or a
digit, so this holds for every real run). -/
def noClash (l : List String) : Prop :=
  ∀ j ∈ l, ∀ j' ∈ l,
    j ≠ strReplace j' "_FK_jnt" "" ++ "_CTRL" ∧
    j ≠ strReplace j' "_FK_jnt" "" ++ "_offset" ∧
    j ≠ strReplace j' "_FK_jnt" "" ++ "_GRP"

instance (l : List String) : Decidable (noClash l) := by
  unfold noClash
  infer_instance

/-- An already-renamed FK pair: spine_FK_jnt with child hip_FK_jnt1. -/
def hostFk : Host :=
  { scene := { nodes := [⟨"spine_FK_jnt", "joint", none, none⟩,
                         ⟨"hip_FK_jnt1", "joint", some "spine_FK_jnt", none⟩],
               selection := [] },
    trace := [], ctr := 0 }

def isParentCmd : Cmd → Bool
  | .parentCmd _ _ => true
  | _ => false

/-- The trace of a control-loop run over the child joint alone, starting
from a manager whose fk_ctrls still holds a stale binding for "spine"
from some earlier invocation. -/
def staleRunTrace : List Cmd :=
  match fkCtrlLoop oracle0 { fk_ctrls := [("spine", "STALE_CTRL")] }
      ["hip_FK_jnt1"] hostFk with
  | .ok (_, hh) => hh.trace
  | .error _ => []

/-- The same run from a freshly constructed manager. -/
def freshRunTrace : List Cmd :=
  match fkCtrlLoop oracle0 { fk_ctrls := [] } ["hip_FK_jnt1"] hostFk with
  | .ok (_, hh) => hh.trace
  | .error _ => []

/-- The rename commands issued by create_fk_chain on the two-joint
skeleton. -/
def fkSkelRenames : List Cmd :=
  match create_fk_chain {} oracle0 hostSkel with
  | .ok (_, hh) => hh.trace.filter isRenameCmd
  | .error _ => []

/-- The rename commands issued by create_ik_setup on the two-joint
skeleton. -/
def ikSkelRenames : List Cmd :=
  match create_ik_setup {} oracle0 hostSkel with
  | .ok (_, hh) => hh.trace.filter isRenameCmd
  | .error _ => []

/-- The scene after create_fk_chain on the two-joint skeleton. -/
def fkSceneAfterSkel : Scene :=
  match create_fk_chain {} oracle0 hostSkel with
  | .ok (_, hh) => hh.scene
  | .error _ => hostSkel.scene

/-- The scene after create_ik_setup on the two-joint skeleton. -/
def ikSceneAfterSkel : Scene :=
  match create_ik_setup {} oracle0 hostSkel with
  | .ok (_, hh) => hh.scene
  | .error _ => hostSkel.scene

/-- Expected host after renaming one duplicated child for FK. -/
def fkRenameRunHost : Host :=
  { scene := host0.scene, trace := [.renameCmd "hip_drv_jnt1" "hip_FK_jnt1"],
    ctr := 1 }

/-- Expected host after renaming one duplicated child for IK. -/
def ikRenameRunHost : Host :=
  { scene := host0.scene, trace := [.renameCmd "hip_drv_jnt1" "hip_IK_jnt1"],
    ctr := 1 }

/-! ## Theorems -/

/-! ## C6: both chain builders bail out without the drive skeleton -/

/-- C6: if no node named spine_drv_jnt exists, `create_fk_chain` and
`create_ik_setup` each emit the warning "No base skeleton found. Create
skeleton first." and return at once: the manager is returned unchanged,
the scene is untouched, and the only new trace entry is the warning. -/
theorem claim_C6_requires_skeleton (rb : RigBuilder) (f : Oracle) (h : Host)
    (hno : h.scene.objExists "spine_drv_jnt" = false) :
    create_fk_chain rb f h = .ok (rb, h.warnCmd noSkelMsg) ∧
    create_ik_setup rb f h = .ok (rb, h.warnCmd noSkelMsg) ∧
    (h.warnCmd noSkelMsg).scene = h.scene ∧
    (h.warnCmd noSkelMsg).trace = h.trace ++ [.warn noSkelMsg] := by
  refine ⟨?_, ?_, rfl, rfl⟩
  · unfold create_fk_chain
    simp [hno, noSkelMsg]
  · unfold create_ik_setup
    simp [hno, noSkelMsg]

/-- Witness for C6 at the empty scene. -/
theorem claim_C6_witness :
    host0.scene.objExists "spine_drv_jnt" = false ∧
    create_fk_chain {} oracle0 host0 = .ok ({}, host0.warnCmd noSkelMsg) ∧
    create_ik_setup {} oracle0 host0 = .ok ({}, host0.warnCmd noSkelMsg) := by
  refine ⟨by decide, ?_, ?_⟩
  · exact (claim_C6_requires_skeleton {} oracle0 host0 (by decide)).1
  · exact (claim_C6_requires_skeleton {} oracle0 host0 (by decide)).2.1

/-! ## C2: exception containment -/

/-- C2 counterexample: the claim says no exception propagates out of any
manager operation for any input.  But `show_display_mode` with the mode
string "xyz" (anything other than base/fk/ik) reads the never-assigned
local nodes_to_show and raises UnboundLocalError, which propagates to the
caller. -/
theorem claim_C2_counterexample :
    show_display_mode "xyz" host0 = .error .unboundLocal := by
  rfl

/-- C2 (amended): the operations whose host calls sit inside try/except
(the copy/rename/toggle/lock loops and save_asset) never let a failure
escape - they return normally for every oracle, input and scene.  But the
RigBuilder chain builders issue their duplicate/rename/parent calls
outside any handler, so a host failure there propagates, as does the
TypeError from iterating the unguarded listRelatives result when the
drive root has no child joints, and the UnboundLocalError of
show_display_mode on an unrecognized mode. -/
theorem claim_C2_amended :
    (∀ m f src tl h, ∃ r, copy_weights m f src tl h = .ok r) ∧
    (∀ f ni pre h, ∃ r, rename_objects f ni pre h = .ok r) ∧
    (∀ f vis so h, ∃ r, toggle_joint_display f vis so h = .ok r) ∧
    (∀ m f lk t r sc h, ∃ out, lock_unlock_attributes m f lk t r sc h = .ok out) ∧
    (∀ m f an ft h, ∃ r, save_asset m f an ft h = .ok r) ∧
    create_fk_chain {} oracle1 hostSkel = .error .hostFailure ∧
    create_ik_setup {} oracle1 hostSkel = .error .hostFailure ∧
    create_fk_chain {} oracle0 hostLonely = .error .noneIteration ∧
    show_display_mode "base" host0 = .ok host0 := by
  refine ⟨?_, ?_, ?_, ?_, ?_, by rfl, by rfl, by rfl, by rfl⟩
  · intro m f src tl h
    simp only [copy_weights]
    repeat' split
    all_goals exact ⟨_, rfl⟩
  · intro f ni pre h
    simp only [rename_objects]
    repeat' split
    all_goals exact ⟨_, rfl⟩
  · intro f vis so h
    simp only [toggle_joint_display]
    repeat' split
    all_goals exact ⟨_, rfl⟩
  · intro m f lk t r sc h
    simp only [lock_unlock_attributes]
    repeat' split
    all_goals exact ⟨_, rfl⟩
  · intro m f an ft h
    simp only [save_asset]
    repeat' split
    all_goals exact ⟨_, rfl⟩

/-! ## C3: input validation before any mutating host command -/

/-- C3: each operation validates its UI-supplied input first and, when
validation fails, returns False having emitted exactly one warning and
forwarded nothing (the scene is untouched and the only new trace entry is
the warning, as the final conjunct states for any warning): rename_objects
on an empty selection or an all-whitespace name, copy_weights on an empty,
missing, or skinless source, save_asset on an all-whitespace name. -/
theorem claim_C3_validation :
    (∀ f ni pre h, h.scene.selection = [] →
      rename_objects f ni pre h = .ok (h.warnCmd "No objects selected.", false)) ∧
    (∀ f ni pre h, h.scene.selection ≠ [] → pyStrip ni = "" →
      rename_objects f ni pre h = .ok (h.warnCmd "No name input provided.", false)) ∧
    (∀ m f tl h, copy_weights m f "" tl h =
      .ok (h.warnCmd "No source object specified", false)) ∧
    (∀ m f src tl h, src ≠ "" → h.scene.objExists src = false →
      copy_weights m f src tl h =
        .ok (h.warnCmd s!"Source object {src} does not exist", false)) ∧
    (∀ m f src tl h, src ≠ "" → h.scene.objExists src = true →
      get_skin_cluster h.scene src = none →
      copy_weights m f src tl h =
        .ok (h.warnCmd s!"No skinCluster found on {src}", false)) ∧
    (∀ m f an ft h, pyStrip an = "" →
      save_asset m f an ft h = .ok (h.warnCmd "No asset name provided.", false)) ∧
    (∀ h msg, (Host.warnCmd h msg).scene = h.scene ∧
      (Host.warnCmd h msg).trace = h.trace ++ [.warn msg]) := by
  refine ⟨?_, ?_, ?_, ?_, ?_, ?_, fun h msg => ⟨rfl, rfl⟩⟩
  · intro f ni pre h hsel
    simp only [rename_objects, hsel]
    rfl
  · intro f ni pre h hsel hnm
    simp only [rename_objects, hnm, List.isEmpty_iff, if_neg hsel]
    simp [hsel]
  · intro m f tl h
    simp only [copy_weights]
    rfl
  · intro m f src tl h hne hno
    simp only [copy_weights, hno]
    simp [hne]
  · intro m f src tl h hne hex hskin
    simp only [copy_weights, hex, hskin]
    simp [hne]
  · intro m f an ft h hnm
    simp only [save_asset, hnm]
    rfl

/-- Witness for C3 at concrete failing inputs. -/
theorem claim_C3_witness :
    (host0.scene.selection = [] ∧
      rename_objects oracle0 "pfx" true host0 =
        .ok (host0.warnCmd "No objects selected.", false)) ∧
    (copy_weights {} oracle0 "" none host0 =
      .ok (host0.warnCmd "No source object specified", false)) ∧
    (pyStrip "  " = "" ∧
      save_asset {} oracle0 "  " "MA" host0 =
        .ok (host0.warnCmd "No asset name provided.", false)) := by
  refine ⟨⟨rfl, ?_⟩, ?_, ⟨by decide, ?_⟩⟩
  · exact claim_C3_validation.1 oracle0 "pfx" true host0 rfl
  · exact claim_C3_validation.2.2.1 ({} : SkinWeightManager) oracle0 none host0
  · exact claim_C3_validation.2.2.2.2.2.1 ({} : AssetManager) oracle0 "  " "MA" host0 (by decide)

/-- C9: `target_list or self.target_objects` selects the default list
["two", "three", "four"] whenever target_list is falsy, so an explicitly
empty list behaves exactly like None (first conjunct, for every manager,
oracle, source and host), and concretely copy_weights(source, []) issues
one copySkinWeights per default target rather than none (remaining
conjuncts). -/
theorem claim_C9_empty_target_list :
    (∀ m f src h, copy_weights m f src (some []) h = copy_weights m f src none h) ∧
    copyEmptyListTrace =
      [.copySkinCmd "oneSkin" "twoSkin", .copySkinCmd "oneSkin" "threeSkin",
       .copySkinCmd "oneSkin" "fourSkin",
       .dialog "Copy Skin Weights" "Skin weights copied successfully to 3 objects!"] ∧
    copy_weights {} oracle0 "one" (some []) hostSkins =
      copy_weights {} oracle0 "one" (some ["two", "three", "four"]) hostSkins := by
  refine ⟨fun m f src h => rfl, by rfl, by rfl⟩

/-- C1 counterexample: the claim requires every batch operation to return
true iff the count of successfully processed items is positive, and to
report that count.  toggle_joint_display on a scene with no joints
processes zero items yet prints "Shown 0 all joints" and returns True. -/
theorem claim_C1_counterexample :
    toggle_joint_display oracle0 true false host0 =
      .ok (host0.emit (.printed "Shown 0 all joints"), true) ∧
    countDrawStyle (host0.emit (.printed "Shown 0 all joints")).trace = 0 := by
  exact ⟨by rfl, by rfl⟩

/-- C8 counterexample: the claim says every manager method leaves its own
fields unchanged.  Running create_fk_chain on the two-joint skeleton
changes fk_ctrls from the empty dictionary to two recorded controls. -/
theorem claim_C8_counterexample :
    fkCtrlsAfterSkel = [("spine", "spine_CTRL"), ("hip1", "hip1_CTRL")] ∧
    fkCtrlsAfterSkel ≠ ({} : RigBuilder).fk_ctrls := by
  refine ⟨by rfl, ?_⟩
  intro hcontra
  simp only [fkCtrlsAfterSkel] at hcontra
  exact absurd hcontra (by decide)

/-- The rename loop processes every selected object in order: each
contributes exactly one trace entry (its rename or its failure warning),
and the returned count is the starting count plus the number of renames
recorded. -/
theorem renLoop_spec (f : Oracle) (nm : String) (pre : Bool) :
    ∀ (sel : List String) (h : Host) (cnt : Nat),
      ∃ ext : List Cmd,
        (renLoop f nm pre sel h cnt).1.trace = h.trace ++ ext ∧
        List.Forall₂ (renItem nm pre) sel ext ∧
        (renLoop f nm pre sel h cnt).2 = cnt + ext.countP isRenameCmd := by
  intro sel
  induction sel with
  | nil =>
    intro h cnt
    exact ⟨[], by simp [renLoop], List.Forall₂.nil, by simp [renLoop]⟩
  | cons obj rest ih =>
    intro h cnt
    cases hf : f h.ctr with
    | true =>
      have hstep : renLoop f nm pre (obj :: rest) h cnt =
          renLoop f nm pre rest
            { scene := h.scene,
              trace := h.trace ++ [.warn s!"Failed to rename {obj}: host error"],
              ctr := h.ctr + 1 } cnt := by
        simp [renLoop, Host.tryCmd, hf, Host.warnCmd, Host.emit]
      obtain ⟨ext, ht, hfa, hc⟩ := ih
        { scene := h.scene,
          trace := h.trace ++ [.warn s!"Failed to rename {obj}: host error"],
          ctr := h.ctr + 1 } cnt
      refine ⟨.warn s!"Failed to rename {obj}: host error" :: ext, ?_,
        List.Forall₂.cons (Or.inr rfl) hfa, ?_⟩
      · rw [hstep, ht]
        simp
      · rw [hstep, hc]
        simp [List.countP_cons, isRenameCmd]
    | false =>
      have hstep : renLoop f nm pre (obj :: rest) h cnt =
          renLoop f nm pre rest
            { scene := h.scene.renameNode obj
                (if pre then nm ++ "_" ++ obj else obj ++ "_" ++ nm),
              trace := h.trace ++
                [.renameCmd obj (if pre then nm ++ "_" ++ obj else obj ++ "_" ++ nm)],
              ctr := h.ctr + 1 } (cnt + 1) := by
        simp [renLoop, Host.tryCmd, hf, Host.warnCmd, Host.emit]
      obtain ⟨ext, ht, hfa, hc⟩ := ih
        { scene := h.scene.renameNode obj
            (if pre then nm ++ "_" ++ obj else obj ++ "_" ++ nm),
          trace := h.trace ++
            [.renameCmd obj (if pre then nm ++ "_" ++ obj else obj ++ "_" ++ nm)],
          ctr := h.ctr + 1 } (cnt + 1)
      refine ⟨.renameCmd obj (if pre then nm ++ "_" ++ obj else obj ++ "_" ++ nm)
        :: ext, ?_, List.Forall₂.cons (Or.inl rfl) hfa, ?_⟩
      · rw [hstep, ht]
        simp
      · rw [hstep, hc]
        simp [List.countP_cons, isRenameCmd]
        omega

/-- The copy loop leaves the scene alone, processes every target in order
(one trace entry per target) and returns the starting count plus the
number of copySkinWeights commands recorded. -/
theorem copyLoop_spec (f : Oracle) (ss : String) :
    ∀ (ts : List String) (h : Host) (cnt : Nat),
      (copyLoop f ss ts h cnt).1.scene = h.scene ∧
      ∃ ext : List Cmd,
        (copyLoop f ss ts h cnt).1.trace = h.trace ++ ext ∧
        List.Forall₂ (copyItem h.scene ss) ts ext ∧
        (copyLoop f ss ts h cnt).2 = cnt + ext.countP isCopyCmd := by
  intro ts
  induction ts with
  | nil =>
    intro h cnt
    exact ⟨rfl, [], by simp [copyLoop], List.Forall₂.nil, by simp [copyLoop]⟩
  | cons t rest ih =>
    intro h cnt
    cases hex : h.scene.objExists t with
    | false =>
      have hstep : copyLoop f ss (t :: rest) h cnt =
          copyLoop f ss rest
            { scene := h.scene,
              trace := h.trace ++
                [.warn s!"Target object {t} does not exist. Skipping."],
              ctr := h.ctr } cnt := by
        simp [copyLoop, hex, Host.warnCmd, Host.emit]
      obtain ⟨hs, ext, ht, hfa, hc⟩ := ih
        { scene := h.scene,
          trace := h.trace ++
            [.warn s!"Target object {t} does not exist. Skipping."],
          ctr := h.ctr } cnt
      refine ⟨by rw [hstep]; exact hs,
        .warn s!"Target object {t} does not exist. Skipping." :: ext, ?_,
        List.Forall₂.cons (Or.inl ⟨hex, rfl⟩) hfa, ?_⟩
      · rw [hstep, ht]
        simp
      · rw [hstep, hc]
        simp [List.countP_cons, isCopyCmd]
    | true =>
      cases hsk : get_skin_cluster h.scene t with
      | none =>
        have hstep : copyLoop f ss (t :: rest) h cnt =
            copyLoop f ss rest
              { scene := h.scene,
                trace := h.trace ++
                  [.warn s!"No skinCluster found on {t}. Skipping."],
                ctr := h.ctr } cnt := by
          simp [copyLoop, hex, hsk, Host.warnCmd, Host.emit]
        obtain ⟨hs, ext, ht, hfa, hc⟩ := ih
          { scene := h.scene,
            trace := h.trace ++
              [.warn s!"No skinCluster found on {t}. Skipping."],
            ctr := h.ctr } cnt
        refine ⟨by rw [hstep]; exact hs,
          .warn s!"No skinCluster found on {t}. Skipping." :: ext, ?_,
          List.Forall₂.cons (Or.inr (Or.inl ⟨hsk, rfl⟩)) hfa, ?_⟩
        · rw [hstep, ht]
          simp
        · rw [hstep, hc]
          simp [List.countP_cons, isCopyCmd]
      | some ds =>
        cases hf : f h.ctr with
        | true =>
          have hstep : copyLoop f ss (t :: rest) h cnt =
              copyLoop f ss rest
                { scene := h.scene,
                  trace := h.trace ++
                    [.warn s!"Failed to copy weights to {t}: host error"],
                  ctr := h.ctr + 1 } cnt := by
            simp [copyLoop, hex, hsk, Host.tryCmd, hf, Host.warnCmd, Host.emit]
          obtain ⟨hs, ext, ht, hfa, hc⟩ := ih
            { scene := h.scene,
              trace := h.trace ++
                [.warn s!"Failed to copy weights to {t}: host error"],
              ctr := h.ctr + 1 } cnt
          refine ⟨by rw [hstep]; exact hs,
            .warn s!"Failed to copy weights to {t}: host error" :: ext, ?_,
            List.Forall₂.cons (Or.inr (Or.inr (Or.inr rfl))) hfa, ?_⟩
          · rw [hstep, ht]
            simp
          · rw [hstep, hc]
            simp [List.countP_cons, isCopyCmd]
        | false =>
          have hstep : copyLoop f ss (t :: rest) h cnt =
              copyLoop f ss rest
                { scene := h.scene,
                  trace := h.trace ++ [.copySkinCmd ss ds],
                  ctr := h.ctr + 1 } (cnt + 1) := by
            simp [copyLoop, hex, hsk, Host.tryCmd, hf, Host.warnCmd, Host.emit]
          obtain ⟨hs, ext, ht, hfa, hc⟩ := ih
            { scene := h.scene,
              trace := h.trace ++ [.copySkinCmd ss ds],
              ctr := h.ctr + 1 } (cnt + 1)
          refine ⟨by rw [hstep]; exact hs,
            .copySkinCmd ss ds :: ext, ?_,
            List.Forall₂.cons (Or.inr (Or.inr (Or.inl ⟨ds, hsk, rfl⟩))) hfa, ?_⟩
          · rw [hstep, ht]
            simp
          · rw [hstep, hc]
            simp [List.countP_cons, isCopyCmd]
            omega

/-- The joint-display loop leaves the scene alone and processes every
joint in order, one trace entry each. -/
theorem togLoop_spec (f : Oracle) (ds : Nat) :
    ∀ (js : List String) (h : Host),
      (togLoop f ds js h).scene = h.scene ∧
      ∃ ext : List Cmd,
        (togLoop f ds js h).trace = h.trace ++ ext ∧
        List.Forall₂ (togItem ds) js ext := by
  intro js
  induction js with
  | nil =>
    intro h
    exact ⟨rfl, [], by simp [togLoop], List.Forall₂.nil⟩
  | cons j rest ih =>
    intro h
    cases hf : f h.ctr with
    | true =>
      have hstep : togLoop f ds (j :: rest) h =
          togLoop f ds rest
            { scene := h.scene,
              trace := h.trace ++
                [.warn s!"Failed to set display for {j}: host error"],
              ctr := h.ctr + 1 } := by
        simp [togLoop, Host.tryCmd, hf, Host.warnCmd, Host.emit]
      obtain ⟨hs, ext, ht, hfa⟩ := ih
        { scene := h.scene,
          trace := h.trace ++
            [.warn s!"Failed to set display for {j}: host error"],
          ctr := h.ctr + 1 }
      refine ⟨by rw [hstep]; exact hs,
        .warn s!"Failed to set display for {j}: host error" :: ext, ?_,
        List.Forall₂.cons (Or.inr rfl) hfa⟩
      rw [hstep, ht]
      simp
    | false =>
      have hstep : togLoop f ds (j :: rest) h =
          togLoop f ds rest
            { scene := h.scene,
              trace := h.trace ++ [.setDrawStyleCmd j ds],
              ctr := h.ctr + 1 } := by
        simp [togLoop, Host.tryCmd, hf, Host.warnCmd, Host.emit]
      obtain ⟨hs, ext, ht, hfa⟩ := ih
        { scene := h.scene,
          trace := h.trace ++ [.setDrawStyleCmd j ds],
          ctr := h.ctr + 1 }
      refine ⟨by rw [hstep]; exact hs,
        .setDrawStyleCmd j ds :: ext, ?_,
        List.Forall₂.cons (Or.inl rfl) hfa⟩
      rw [hstep, ht]
      simp

/-- The inner attribute loop either sets every listed attribute of the
object (returning true), or sets a strict prefix of them and returns false
after a raised setAttr; it never touches the scene. -/
theorem setAttrsOnObj_spec (f : Oracle) (lk : Bool) (obj : String) :
    ∀ (attrs : List String) (h : Host),
      (setAttrsOnObj f lk obj attrs h).1.scene = h.scene ∧
      (((setAttrsOnObj f lk obj attrs h).2 = true ∧
        (setAttrsOnObj f lk obj attrs h).1.trace =
          h.trace ++ attrs.map (fun a => .setAttrFlagsCmd (obj ++ a) lk (!lk) (!lk))) ∨
       ((setAttrsOnObj f lk obj attrs h).2 = false ∧
        ∃ k, k < attrs.length ∧
          (setAttrsOnObj f lk obj attrs h).1.trace =
            h.trace ++ (attrs.take k).map
              (fun a => .setAttrFlagsCmd (obj ++ a) lk (!lk) (!lk)))) := by
  intro attrs
  induction attrs with
  | nil =>
    intro h
    exact ⟨rfl, Or.inl ⟨rfl, by simp [setAttrsOnObj]⟩⟩
  | cons a rest ih =>
    intro h
    cases hf : f h.ctr with
    | true =>
      have hstep : setAttrsOnObj f lk obj (a :: rest) h =
          ({ scene := h.scene, trace := h.trace, ctr := h.ctr + 1 }, false) := by
        simp [setAttrsOnObj, Host.tryCmd, hf]
      refine ⟨by rw [hstep], Or.inr ⟨by rw [hstep], 0, by simp, by rw [hstep]; simp⟩⟩
    | false =>
      have hstep : setAttrsOnObj f lk obj (a :: rest) h =
          setAttrsOnObj f lk obj rest
            { scene := h.scene,
              trace := h.trace ++ [.setAttrFlagsCmd (obj ++ a) lk (!lk) (!lk)],
              ctr := h.ctr + 1 } := by
        simp [setAttrsOnObj, Host.tryCmd, hf]
      obtain ⟨hs, hcase⟩ := ih
        { scene := h.scene,
          trace := h.trace ++ [.setAttrFlagsCmd (obj ++ a) lk (!lk) (!lk)],
          ctr := h.ctr + 1 }
      refine ⟨by rw [hstep]; exact hs, ?_⟩
      rcases hcase with ⟨hb, htr⟩ | ⟨hb, k, hk, htr⟩
      · refine Or.inl ⟨by rw [hstep]; exact hb, ?_⟩
        rw [hstep, htr]
        simp
      · refine Or.inr ⟨by rw [hstep]; exact hb, k + 1, by simpa using hk, ?_⟩
        rw [hstep, htr]
        simp

/-- The object loop of lock_unlock_attributes leaves the scene alone,
produces a LockExt-shaped trace extension and returns the starting count
plus the number of fully processed objects. -/
theorem lockLoop_spec (f : Oracle) (lk : Bool) (attrs : List String) :
    ∀ (sel : List String) (h : Host) (cnt : Nat),
      (lockLoop f lk attrs sel h cnt).1.scene = h.scene ∧
      ∃ (ext : List Cmd) (n : Nat),
        (lockLoop f lk attrs sel h cnt).1.trace = h.trace ++ ext ∧
        LockExt lk attrs sel ext n ∧
        (lockLoop f lk attrs sel h cnt).2 = cnt + n := by
  intro sel
  induction sel with
  | nil =>
    intro h cnt
    exact ⟨rfl, [], 0, by simp [lockLoop], LockExt.nil, by simp [lockLoop]⟩
  | cons obj rest ih =>
    intro h cnt
    obtain ⟨hs, hcase⟩ := setAttrsOnObj_spec f lk obj attrs h
    rcases hso : setAttrsOnObj f lk obj attrs h with ⟨h1, b⟩
    rw [hso] at hs hcase
    have hstep0 : lockLoop f lk attrs (obj :: rest) h cnt =
        match (h1, b) with
        | (h1, true) => lockLoop f lk attrs rest h1 (cnt + 1)
        | (h1, false) =>
          lockLoop f lk attrs rest
            (h1.warnCmd s!"Failed to modify attributes on {obj}: host error") cnt := by
      rw [lockLoop, hso]
    rcases hcase with ⟨hb, htr⟩ | ⟨hb, k, hk, htr⟩
    · subst hb
      obtain ⟨hs2, ext, n, ht, hle, hc⟩ := ih h1 (cnt + 1)
      refine ⟨?_, (attrs.map fun a => Cmd.setAttrFlagsCmd (obj ++ a) lk (!lk) (!lk))
        ++ ext, n + 1, ?_, LockExt.allOk obj hle, ?_⟩
      · rw [hstep0]
        dsimp only at hs hs2 ⊢
        rw [hs2, hs]
      · rw [hstep0]
        dsimp only at ht htr ⊢
        rw [ht, htr]
        simp
      · rw [hstep0]
        dsimp only at hc ⊢
        rw [hc]
        omega
    · subst hb
      obtain ⟨hs2, ext, n, ht, hle, hc⟩ := ih
        (h1.warnCmd s!"Failed to modify attributes on {obj}: host error") cnt
      refine ⟨?_,
        ((attrs.take k).map fun a => Cmd.setAttrFlagsCmd (obj ++ a) lk (!lk) (!lk)) ++
          Cmd.warn s!"Failed to modify attributes on {obj}: host error" :: ext, n,
        ?_, LockExt.failedAt obj k hk hle, ?_⟩
      · rw [hstep0]
        dsimp only at hs hs2 ⊢
        rw [hs2]
        simpa [Host.warnCmd, Host.emit] using hs
      · rw [hstep0]
        dsimp only at ht htr ⊢
        rw [ht]
        simp [Host.warnCmd, Host.emit, htr]
      · rw [hstep0]
        dsimp only at hc ⊢
        rw [hc]

/-! ## Operation-level characterizations built on the loop lemmas -/

/-- Full characterization of rename_objects on a non-empty selection and
non-blank name: one trace entry per selected object (the rename with the
prefixed or suffixed name, or the failure warning), the success dialog
reporting the count of renames exactly when it is positive, and the
boolean result true iff that count is positive. -/
theorem rename_objects_spec (f : Oracle) (ni : String) (pre : Bool) (h : Host)
    (hsel : h.scene.selection ≠ []) (hnm : pyStrip ni ≠ "") :
    ∃ (ext : List Cmd) (cnt : Nat) (h' : Host),
      cnt = ext.countP isRenameCmd ∧
      List.Forall₂ (renItem (pyStrip ni) pre) h.scene.selection ext ∧
      rename_objects f ni pre h = .ok (h', decide (0 < cnt)) ∧
      h'.trace = h.trace ++ ext ++
        (if 0 < cnt then [.dialog "Rename Objects" (renMsg cnt)] else []) := by
  obtain ⟨ext, ht, hfa, hc⟩ := renLoop_spec f (pyStrip ni) pre h.scene.selection h 0
  have hE : h.scene.selection.isEmpty = false := by
    cases hE2 : h.scene.selection.isEmpty with
    | false => rfl
    | true => exact absurd (List.isEmpty_iff.mp hE2) hsel
  have hc' : (renLoop f (pyStrip ni) pre h.scene.selection h 0).2 =
      ext.countP isRenameCmd := by
    rw [hc]
    omega
  refine ⟨ext, ext.countP isRenameCmd,
    (if 0 < ext.countP isRenameCmd then
      (renLoop f (pyStrip ni) pre h.scene.selection h 0).1.emit
        (.dialog "Rename Objects" (renMsg (ext.countP isRenameCmd)))
     else (renLoop f (pyStrip ni) pre h.scene.selection h 0).1),
    rfl, hfa, ?_, ?_⟩
  · simp only [rename_objects, hE, Bool.false_eq_true, if_false, hnm, hc']
  · by_cases hpos : 0 < ext.countP isRenameCmd
    · simp [hpos, Host.emit, ht]
    · simp [hpos, ht]

/-- Full characterization of copy_weights on a valid source: the target
list falls back to the defaults when falsy, every target contributes one
trace entry (skip warning, copy, or failure warning), the dialog reports
the number of copies exactly when positive, the scene is untouched, and
the boolean result is true iff at least one copy succeeded. -/
theorem copy_weights_spec (m : SkinWeightManager) (f : Oracle) (src : String)
    (tl : Option (List String)) (h : Host) (ss : String)
    (hne : src ≠ "") (hex : h.scene.objExists src = true)
    (hsk : get_skin_cluster h.scene src = some ss) :
    ∃ (ext : List Cmd) (cnt : Nat) (h' : Host),
      cnt = ext.countP isCopyCmd ∧
      List.Forall₂ (copyItem h.scene ss) (targetsOf m tl) ext ∧
      copy_weights m f src tl h = .ok (h', decide (0 < cnt)) ∧
      h'.scene = h.scene ∧
      h'.trace = h.trace ++ ext ++
        (if 0 < cnt then [.dialog "Copy Skin Weights" (copyMsg cnt)] else []) := by
  obtain ⟨hsc, ext, ht, hfa, hc⟩ := copyLoop_spec f ss (targetsOf m tl) h 0
  have hc' : (copyLoop f ss (targetsOf m tl) h 0).2 = ext.countP isCopyCmd := by
    rw [hc]
    omega
  refine ⟨ext, ext.countP isCopyCmd,
    (if 0 < ext.countP isCopyCmd then
      (copyLoop f ss (targetsOf m tl) h 0).1.emit
        (.dialog "Copy Skin Weights" (copyMsg (ext.countP isCopyCmd)))
     else (copyLoop f ss (targetsOf m tl) h 0).1),
    rfl, hfa, ?_, ?_, ?_⟩
  · simp only [copy_weights, hne, if_neg, hex, Bool.true_eq_false,
      not_true_eq_false, if_false, hsk, hc']
  · by_cases hpos : 0 < ext.countP isCopyCmd
    · simp [hpos, Host.emit, hsc]
    · simp [hpos, hsc]
  · by_cases hpos : 0 < ext.countP isCopyCmd
    · simp [hpos, Host.emit, ht]
    · simp [hpos, ht]

/-- Full characterization of toggle_joint_display off the empty-selection
warning path: each joint in the chosen list contributes one trace entry
(its drawStyle set or a failure warning), the printed message reports the
length of the joint list, and the boolean result is True regardless of
how many sets succeeded. -/
theorem toggle_joint_display_spec (f : Oracle) (vis so : Bool) (h : Host)
    (hjs : so = false ∨ (h.scene.lsSelType "joint").isEmpty = false) :
    ∃ (ext : List Cmd) (h' : Host),
      List.Forall₂ (togItem (if vis then 0 else 2))
        (if so then h.scene.lsSelType "joint" else h.scene.lsType "joint") ext ∧
      toggle_joint_display f vis so h = .ok (h', true) ∧
      h'.trace = h.trace ++ ext ++
        [.printed (togMsg vis so
          (if so then h.scene.lsSelType "joint" else h.scene.lsType "joint").length)] := by
  obtain ⟨hsc, ext, ht, hfa⟩ := togLoop_spec f (if vis then 0 else 2)
    (if so then h.scene.lsSelType "joint" else h.scene.lsType "joint") h
  have hguard : ¬ (so = true ∧
      (if so then h.scene.lsSelType "joint" else h.scene.lsType "joint").isEmpty = true) := by
    rintro ⟨hso, hemp⟩
    subst hso
    simp only [if_true] at hemp
    rcases hjs with hso2 | hne
    · simp at hso2
    · rw [hemp] at hne
      simp at hne
  refine ⟨ext,
    (togLoop f (if vis then 0 else 2)
      (if so then h.scene.lsSelType "joint" else h.scene.lsType "joint") h).emit
      (.printed (togMsg vis so
        (if so then h.scene.lsSelType "joint" else h.scene.lsType "joint").length)),
    hfa, ?_, ?_⟩
  · simp only [toggle_joint_display, if_neg hguard]
  · simp [Host.emit, ht]

/-- Full characterization of lock_unlock_attributes on a non-empty
selection with at least one enabled group: the trace extension is one
block per selected object - either every enabled attribute set with flags
(lock, not lock, not lock) or a strict prefix of them followed by the
failure warning - the printed message reports the number of fully
processed objects exactly when positive, and the boolean result is true
iff that number is positive. -/
theorem lock_unlock_attributes_spec (f : Oracle) (lk t r sc : Bool) (h : Host)
    (hsel : h.scene.selection ≠ []) (hat : enabledAttrs t r sc ≠ []) :
    ∃ (ext : List Cmd) (n : Nat) (h' : Host),
      LockExt lk (enabledAttrs t r sc) h.scene.selection ext n ∧
      lock_unlock_attributes locker0 f lk t r sc h = .ok (h', decide (0 < n)) ∧
      h'.scene = h.scene ∧
      h'.trace = h.trace ++ ext ++
        (if 0 < n then [.printed (lockMsg lk n)] else []) := by
  have hag : (if t then lockerAttrs locker0 "Translate" else []) ++
      (if r then lockerAttrs locker0 "Rotate" else []) ++
      (if sc then lockerAttrs locker0 "Scale" else []) = enabledAttrs t r sc := by
    cases t <;> cases r <;> cases sc <;> rfl
  have hE : h.scene.selection.isEmpty = false := by
    cases hE2 : h.scene.selection.isEmpty with
    | false => rfl
    | true => exact absurd (List.isEmpty_iff.mp hE2) hsel
  have hatE : (enabledAttrs t r sc).isEmpty = false := by
    cases hE2 : (enabledAttrs t r sc).isEmpty with
    | false => rfl
    | true => exact absurd (List.isEmpty_iff.mp hE2) hat
  obtain ⟨hsc2, ext, n, ht, hle, hc⟩ :=
    lockLoop_spec f lk (enabledAttrs t r sc) h.scene.selection h 0
  have hc' : (lockLoop f lk (enabledAttrs t r sc) h.scene.selection h 0).2 = n := by
    rw [hc]
    omega
  refine ⟨ext, n,
    (if 0 < n then
      (lockLoop f lk (enabledAttrs t r sc) h.scene.selection h 0).1.emit
        (.printed (lockMsg lk n))
     else (lockLoop f lk (enabledAttrs t r sc) h.scene.selection h 0).1),
    hle, ?_, ?_, ?_⟩
  · simp only [lock_unlock_attributes, hE, Bool.false_eq_true, if_false, hag,
      hatE, hc']
  · by_cases hpos : 0 < n
    · simp [hpos, Host.emit, hsc2]
    · simp [hpos, hsc2]
  · by_cases hpos : 0 < n
    · simp [hpos, Host.emit, ht]
    · simp [hpos, ht]

/-! ## C5: rename_objects semantics -/

/-- C5: on a non-empty selection and a name whose stripped form is
non-empty, rename_objects renames each selected obj to name_obj (prefix
mode) or obj_name (suffix mode) - each selected object contributes its
rename command or a failure warning, in order - and returns True iff at
least one rename succeeded (the count of rename commands is positive). -/
theorem claim_C5_rename_semantics (f : Oracle) (ni : String) (pre : Bool)
    (h : Host) (hsel : h.scene.selection ≠ []) (hnm : pyStrip ni ≠ "") :
    ∃ (ext : List Cmd) (cnt : Nat) (h' : Host),
      cnt = ext.countP isRenameCmd ∧
      List.Forall₂ (renItem (pyStrip ni) pre) h.scene.selection ext ∧
      rename_objects f ni pre h = .ok (h', decide (0 < cnt)) ∧
      h'.trace = h.trace ++ ext ++
        (if 0 < cnt then [.dialog "Rename Objects" (renMsg cnt)] else []) :=
  rename_objects_spec f ni pre h hsel hnm

/-- Witness for C5: both selected objects are renamed with the stripped
prefix under the no-failure oracle. -/
theorem claim_C5_witness :
    hostSel.scene.selection ≠ [] ∧ pyStrip " aa " ≠ "" ∧
    (∃ (ext : List Cmd) (cnt : Nat) (h' : Host),
      cnt = ext.countP isRenameCmd ∧
      List.Forall₂ (renItem (pyStrip " aa ") true) hostSel.scene.selection ext ∧
      rename_objects oracle0 " aa " true hostSel = .ok (h', decide (0 < cnt)) ∧
      h'.trace = hostSel.trace ++ ext ++
        (if 0 < cnt then [.dialog "Rename Objects" (renMsg cnt)] else [])) :=
  ⟨by decide, by decide,
    claim_C5_rename_semantics oracle0 " aa " true hostSel (by decide) (by decide)⟩

/-! ## C7: lock_unlock_attributes semantics -/

/-- C7: with a non-empty selection, lock_unlock_attributes warns and
returns False when all three group flags are off; otherwise every setAttr
it issues carries lock = lock and keyable = channelBox = not lock on an
enabled attribute of a selected object (the LockExt blocks), objects
whose inner loop raised get a warning and no count, and the result is
True iff at least one selected object had all its listed attributes
modified without error. -/
theorem claim_C7_lock_unlock (f : Oracle) (lk : Bool) (h : Host)
    (hsel : h.scene.selection ≠ []) :
    lock_unlock_attributes locker0 f lk false false false h =
      .ok (h.warnCmd "No attributes specified.", false) ∧
    (∀ (t r sc : Bool), (t || r || sc) = true →
      ∃ (ext : List Cmd) (n : Nat) (h' : Host),
        LockExt lk (enabledAttrs t r sc) h.scene.selection ext n ∧
        lock_unlock_attributes locker0 f lk t r sc h = .ok (h', decide (0 < n)) ∧
        h'.scene = h.scene ∧
        h'.trace = h.trace ++ ext ++
          (if 0 < n then [.printed (lockMsg lk n)] else [])) := by
  have hE : h.scene.selection.isEmpty = false := by
    cases hE2 : h.scene.selection.isEmpty with
    | false => rfl
    | true => exact absurd (List.isEmpty_iff.mp hE2) hsel
  constructor
  · simp only [lock_unlock_attributes, hE, Bool.false_eq_true, if_false]
    rfl
  · intro t r sc hflag
    have hat : enabledAttrs t r sc ≠ [] := by
      cases t <;> cases r <;> cases sc <;> simp_all [enabledAttrs]
    exact lock_unlock_attributes_spec f lk t r sc h hsel hat

/-- Witness for C7 on the two-object selection: the all-off flags path
warns, and the translate-only path produces the characterized run. -/
theorem claim_C7_witness :
    hostSel.scene.selection ≠ [] ∧
    lock_unlock_attributes locker0 oracle0 true false false false hostSel =
      .ok (hostSel.warnCmd "No attributes specified.", false) ∧
    (∃ (ext : List Cmd) (n : Nat) (h' : Host),
      LockExt true (enabledAttrs true false false) hostSel.scene.selection ext n ∧
      lock_unlock_attributes locker0 oracle0 true true false false hostSel =
        .ok (h', decide (0 < n)) ∧
      h'.scene = hostSel.scene ∧
      h'.trace = hostSel.trace ++ ext ++
        (if 0 < n then [.printed (lockMsg true n)] else [])) := by
  refine ⟨by decide, ?_, ?_⟩
  · exact (claim_C7_lock_unlock oracle0 true hostSel (by decide)).1
  · exact (claim_C7_lock_unlock oracle0 true hostSel (by decide)).2 true false false rfl

/-! ## C1: batch operations - amended claim -/

/-- C1 (amended): copy_weights, rename_objects and lock_unlock_attributes
do skip-and-continue per item, surface each per-item failure as a warning,
report the count of successfully processed items in their dialog or
printed message, and return true iff that count is positive.
toggle_joint_display also warns and continues per item, but its printed
message reports the length of the processed joint list (not the success
count) and its boolean result is True unconditionally on this path, even
when zero items succeeded. -/
theorem claim_C1_batch_loops :
    (∀ (m : SkinWeightManager) (f : Oracle) (src : String)
        (tl : Option (List String)) (h : Host) (ss : String),
      src ≠ "" → h.scene.objExists src = true →
      get_skin_cluster h.scene src = some ss →
      ∃ (ext : List Cmd) (cnt : Nat) (h' : Host),
        cnt = ext.countP isCopyCmd ∧
        List.Forall₂ (copyItem h.scene ss) (targetsOf m tl) ext ∧
        copy_weights m f src tl h = .ok (h', decide (0 < cnt)) ∧
        h'.trace = h.trace ++ ext ++
          (if 0 < cnt then [.dialog "Copy Skin Weights" (copyMsg cnt)] else [])) ∧
    (∀ (f : Oracle) (ni : String) (pre : Bool) (h : Host),
      h.scene.selection ≠ [] → pyStrip ni ≠ "" →
      ∃ (ext : List Cmd) (cnt : Nat) (h' : Host),
        cnt = ext.countP isRenameCmd ∧
        List.Forall₂ (renItem (pyStrip ni) pre) h.scene.selection ext ∧
        rename_objects f ni pre h = .ok (h', decide (0 < cnt)) ∧
        h'.trace = h.trace ++ ext ++
          (if 0 < cnt then [.dialog "Rename Objects" (renMsg cnt)] else [])) ∧
    (∀ (f : Oracle) (lk t r sc : Bool) (h : Host),
      h.scene.selection ≠ [] → enabledAttrs t r sc ≠ [] →
      ∃ (ext : List Cmd) (n : Nat) (h' : Host),
        LockExt lk (enabledAttrs t r sc) h.scene.selection ext n ∧
        lock_unlock_attributes locker0 f lk t r sc h = .ok (h', decide (0 < n)) ∧
        h'.trace = h.trace ++ ext ++
          (if 0 < n then [.printed (lockMsg lk n)] else [])) ∧
    (∀ (f : Oracle) (vis so : Bool) (h : Host),
      so = false ∨ (h.scene.lsSelType "joint").isEmpty = false →
      ∃ (ext : List Cmd) (h' : Host),
        List.Forall₂ (togItem (if vis then 0 else 2))
          (if so then h.scene.lsSelType "joint" else h.scene.lsType "joint") ext ∧
        toggle_joint_display f vis so h = .ok (h', true) ∧
        h'.trace = h.trace ++ ext ++
          [.printed (togMsg vis so
            (if so then h.scene.lsSelType "joint"
             else h.scene.lsType "joint").length)]) := by
  refine ⟨?_, ?_, ?_, ?_⟩
  · intro m f src tl h ss hne hex hsk
    obtain ⟨ext, cnt, h', h1, h2, h3, _, h5⟩ :=
      copy_weights_spec m f src tl h ss hne hex hsk
    exact ⟨ext, cnt, h', h1, h2, h3, h5⟩
  · intro f ni pre h hsel hnm
    exact rename_objects_spec f ni pre h hsel hnm
  · intro f lk t r sc h hsel hat
    obtain ⟨ext, n, h', h1, h2, _, h4⟩ :=
      lock_unlock_attributes_spec f lk t r sc h hsel hat
    exact ⟨ext, n, h', h1, h2, h4⟩
  · intro f vis so h hjs
    exact toggle_joint_display_spec f vis so h hjs

/-- Witness for the amended C1, one concrete run per loop. -/
theorem claim_C1_witness :
    ("one" ≠ "" ∧ hostSkins.scene.objExists "one" = true ∧
      get_skin_cluster hostSkins.scene "one" = some "oneSkin" ∧
      ∃ (ext : List Cmd) (cnt : Nat) (h' : Host),
        cnt = ext.countP isCopyCmd ∧
        List.Forall₂ (copyItem hostSkins.scene "oneSkin")
          (targetsOf {} none) ext ∧
        copy_weights {} oracle0 "one" none hostSkins = .ok (h', decide (0 < cnt)) ∧
        h'.trace = hostSkins.trace ++ ext ++
          (if 0 < cnt then [.dialog "Copy Skin Weights" (copyMsg cnt)] else [])) ∧
    (∃ (ext : List Cmd) (cnt : Nat) (h' : Host),
      cnt = ext.countP isRenameCmd ∧
      List.Forall₂ (renItem (pyStrip "sfx") false) hostSel.scene.selection ext ∧
      rename_objects oracle0 "sfx" false hostSel = .ok (h', decide (0 < cnt)) ∧
      h'.trace = hostSel.trace ++ ext ++
        (if 0 < cnt then [.dialog "Rename Objects" (renMsg cnt)] else [])) ∧
    (∃ (ext : List Cmd) (n : Nat) (h' : Host),
      LockExt false (enabledAttrs false true false) hostSel.scene.selection ext n ∧
      lock_unlock_attributes locker0 oracle0 false false true false hostSel =
        .ok (h', decide (0 < n)) ∧
      h'.trace = hostSel.trace ++ ext ++
        (if 0 < n then [.printed (lockMsg false n)] else [])) ∧
    (∃ (ext : List Cmd) (h' : Host),
      List.Forall₂ (togItem 0) (hostSkel.scene.lsType "joint") ext ∧
      toggle_joint_display oracle0 true false hostSkel = .ok (h', true) ∧
      h'.trace = hostSkel.trace ++ ext ++
        [.printed (togMsg true false (hostSkel.scene.lsType "joint").length)]) := by
  refine ⟨⟨by decide, by rfl, by rfl, ?_⟩, ?_, ?_, ?_⟩
  · exact claim_C1_batch_loops.1 {} oracle0 "one" none hostSkins "oneSkin"
      (by decide) (by rfl) (by rfl)
  · exact claim_C1_batch_loops.2.1 oracle0 "sfx" false hostSel (by decide) (by decide)
  · exact claim_C1_batch_loops.2.2.1 oracle0 false false true false hostSel
      (by decide) (by decide)
  · exact claim_C1_batch_loops.2.2.2 oracle0 true false hostSkel (Or.inl rfl)

/-! ## Scene and dictionary lemmas for the FK control loop -/

theorem dictGet_dictSet (d : List (String × String)) (k v q : String) :
    dictGet (dictSet d k v) q = if q = k then some v else dictGet d q := by
  induction d with
  | nil => simp [dictSet, dictGet]
  | cons a d ih =>
    obtain ⟨k0, v0⟩ := a
    by_cases h0 : k0 = k
    · subst h0
      by_cases hq : q = k0 <;> simp [dictSet, dictGet, hq]
    · by_cases hq : q = k0
      · subst hq
        have hqk : q ≠ k := h0
        simp [dictSet, dictGet, h0, hqk]
      · simp [dictSet, dictGet, h0, hq, ih]

/-- `find?` over a name-preserving map commutes with the map. -/
theorem findNode_map_preserve (g : Node → Node) (hg : ∀ x, (g x).name = x.name)
    (j : String) :
    ∀ l : List Node, (l.map g).find? (fun x => x.name = j) =
      (l.find? (fun x => x.name = j)).map g := by
  intro l
  induction l with
  | nil => rfl
  | cons x rest ih =>
    by_cases hx : x.name = j
    · simp [List.find?_cons_of_pos, hg, hx]
    · simp only [List.map_cons]
      rw [List.find?_cons_of_neg, List.find?_cons_of_neg, ih]
      · simpa using hx
      · simpa [hg] using hx

theorem findNode_setParent (s : Scene) (c : String) (p' : Option String)
    (j : String) :
    (s.setParent c p').findNode j =
      (s.findNode j).map (fun x => if x.name = c then { x with parent := p' } else x) := by
  unfold Scene.findNode Scene.setParent
  exact findNode_map_preserve _ (fun x => by split <;> rfl) j s.nodes

theorem findNode_addNode (s : Scene) (n : Node) (j : String) :
    (s.addNode n).findNode j =
      match s.findNode j with
      | some x => some x
      | none => if n.name = j then some n else none := by
  unfold Scene.findNode Scene.addNode
  dsimp only
  rw [List.find?_append]
  cases s.nodes.find? (fun x => decide (x.name = j)) <;>
    by_cases hn : n.name = j <;>
    simp [List.find?, Option.or, hn]

/-- Re-parenting a node other than `j` does not change the parent joint
of `j`. -/
theorem parentJoint_setParent (s : Scene) (c : String) (p' : Option String)
    (j : String) (hj : j ≠ c) :
    (s.setParent c p').parentJoint j = s.parentJoint j := by
  unfold Scene.parentJoint
  rw [findNode_setParent]
  cases hfind : s.findNode j with
  | none => rfl
  | some x =>
    have hxname : x.name = j := by
      have := List.find?_some hfind
      simpa using this
    have hgx : (if x.name = c then { x with parent := p' } else x) = x := by
      rw [hxname]
      simp [hj]
    cases hp : x.parent with
    | none => simp [Option.map, hgx, hp]
    | some p =>
      simp only [Option.map, hgx, hp]
      rw [findNode_setParent]
      cases hfp : s.findNode p with
      | none => simp
      | some y =>
        simp only [Option.map]
        by_cases hyc : y.name = c <;> simp [hyc]

/-- Adding a transform node (as the control loop does) does not change
the parent joint of any node. -/
theorem parentJoint_addTransform (s : Scene) (nm : String) (j : String) :
    (s.addNode ⟨nm, "transform", none, none⟩).parentJoint j = s.parentJoint j := by
  unfold Scene.parentJoint
  rw [findNode_addNode]
  cases hfind : s.findNode j with
  | none =>
    by_cases hnm : nm = j <;> simp [hnm]
  | some x =>
    cases hp : x.parent with
    | none => simp [hp]
    | some p =>
      simp only [hp]
      rw [findNode_addNode]
      cases hfp : s.findNode p with
      | none =>
        by_cases hnm : nm = p <;> simp [hnm]
      | some y => rfl

/-- The three creations and two groupings of one FK control-loop step do
not change the parent joint of any node that is not one of the created
control names. -/
theorem parentJoint_fkScene (s : Scene) (B : String) (j' : String)
    (h1 : j' ≠ B ++ "_CTRL") (h2 : j' ≠ B ++ "_offset") :
    (((((s.addNode ⟨B ++ "_CTRL", "transform", none, none⟩).addNode
          ⟨B ++ "_offset", "transform", none, none⟩).setParent (B ++ "_CTRL")
          (some (B ++ "_offset"))).addNode
          ⟨B ++ "_GRP", "transform", none, none⟩).setParent (B ++ "_offset")
          (some (B ++ "_GRP"))).parentJoint j' = s.parentJoint j' := by
  rw [parentJoint_setParent _ _ _ _ h2, parentJoint_addTransform,
    parentJoint_setParent _ _ _ _ h1, parentJoint_addTransform,
    parentJoint_addTransform]

/-- Main invariant argument for the FK control loop: under a no-failure
oracle, if the joints are processed parents-first (relative to the scene
`s0` that the current scene agrees with on every joint of the list), and
the fk_ctrls dictionary already records a control for every previously
processed joint, then the loop succeeds and, for every joint of the list
whose parent joint is `p`, the trace receives the command parenting the
control group of that joint under the control of `p`. -/
theorem fkCtrlLoop_parents (f : Oracle) (hf : ∀ n, f n = false) (s0 : Scene)
    (l0 : List String) (hcl : noClash l0) :
    ∀ (r seen : List String) (rb : RigBuilder) (h : Host),
      seen ++ r = l0 →
      parentsFirstAux s0 seen r = true →
      (∀ j ∈ l0, h.scene.parentJoint j = s0.parentJoint j) →
      (∀ q ∈ seen, dictGet rb.fk_ctrls (strReplace q "_FK_jnt" "") =
        some (strReplace q "_FK_jnt" "" ++ "_CTRL")) →
      ∃ (rb' : RigBuilder) (h' : Host),
        fkCtrlLoop f rb r h = .ok (rb', h') ∧
        (∀ c, c ∈ h.trace → c ∈ h'.trace) ∧
        (∀ j ∈ r, ∀ p, s0.parentJoint j = some p →
          Cmd.parentCmd (strReplace j "_FK_jnt" "" ++ "_GRP")
            (strReplace p "_FK_jnt" "" ++ "_CTRL") ∈ h'.trace) := by
  intro r
  induction r with
  | nil =>
    intro seen rb h _ _ _ _
    exact ⟨rb, h, rfl, fun c hc => hc, by simp⟩
  | cons j rest ih =>
    intro seen rb h hl0 hpf hinv hdict
    have hjmem : j ∈ l0 := by
      rw [← hl0]
      exact List.mem_append_right _ (List.mem_cons_self j rest)
    have hjj := hcl j hjmem j hjmem
    -- the parent lookup inside the step sees the unchanged parent joint
    have hblock : ∀ j', j' ≠ strReplace j "_FK_jnt" "" ++ "_CTRL" →
        j' ≠ strReplace j "_FK_jnt" "" ++ "_offset" →
        ((((((h.scene.addNode
            ⟨strReplace j "_FK_jnt" "" ++ "_CTRL", "transform", none, none⟩).addNode
            ⟨strReplace j "_FK_jnt" "" ++ "_offset", "transform", none, none⟩).setParent
            (strReplace j "_FK_jnt" "" ++ "_CTRL")
            (some (strReplace j "_FK_jnt" "" ++ "_offset"))).addNode
            ⟨strReplace j "_FK_jnt" "" ++ "_GRP", "transform", none, none⟩).setParent
            (strReplace j "_FK_jnt" "" ++ "_offset")
            (some (strReplace j "_FK_jnt" "" ++ "_GRP")))).parentJoint j' =
          h.scene.parentJoint j' := by
      intro j' h1 h2
      exact parentJoint_fkScene h.scene (strReplace j "_FK_jnt" "") j' h1 h2
    have hpjstep : ((((((h.scene.addNode
        ⟨strReplace j "_FK_jnt" "" ++ "_CTRL", "transform", none, none⟩).addNode
        ⟨strReplace j "_FK_jnt" "" ++ "_offset", "transform", none, none⟩).setParent
        (strReplace j "_FK_jnt" "" ++ "_CTRL")
        (some (strReplace j "_FK_jnt" "" ++ "_offset"))).addNode
        ⟨strReplace j "_FK_jnt" "" ++ "_GRP", "transform", none, none⟩).setParent
        (strReplace j "_FK_jnt" "" ++ "_offset")
        (some (strReplace j "_FK_jnt" "" ++ "_GRP")))).parentJoint j =
        s0.parentJoint j := by
      rw [hblock j hjj.1 hjj.2.1]
      exact hinv j hjmem
    have hpf' : parentsFirstAux s0 (seen ++ [j]) rest = true := by
      simp only [parentsFirstAux, Bool.and_eq_true] at hpf
      exact hpf.2
    have hl0' : (seen ++ [j]) ++ rest = l0 := by
      rw [← hl0]
      simp
    cases hpj : s0.parentJoint j with
    | none =>
      -- no parent joint: the step records no parent command
      have hstep : fkCtrlStep rb f j h = .ok
          ({ fk_ctrls := dictSet rb.fk_ctrls (strReplace j "_FK_jnt" "")
              (strReplace j "_FK_jnt" "" ++ "_CTRL") },
           { scene := ((((h.scene.addNode
               ⟨strReplace j "_FK_jnt" "" ++ "_CTRL", "transform", none, none⟩).addNode
               ⟨strReplace j "_FK_jnt" "" ++ "_offset", "transform", none, none⟩).setParent
               (strReplace j "_FK_jnt" "" ++ "_CTRL")
               (some (strReplace j "_FK_jnt" "" ++ "_offset"))).addNode
               ⟨strReplace j "_FK_jnt" "" ++ "_GRP", "transform", none, none⟩).setParent
               (strReplace j "_FK_jnt" "" ++ "_offset")
               (some (strReplace j "_FK_jnt" "" ++ "_GRP")),
             trace := h.trace ++
               [.circleCmd (strReplace j "_FK_jnt" "" ++ "_CTRL"),
                .groupCmd (strReplace j "_FK_jnt" "" ++ "_CTRL")
                  (strReplace j "_FK_jnt" "" ++ "_offset"),
                .groupCmd (strReplace j "_FK_jnt" "" ++ "_offset")
                  (strReplace j "_FK_jnt" "" ++ "_GRP"),
                .matchTransformCmd (strReplace j "_FK_jnt" "" ++ "_GRP") j,
                .parentConstraintCmd (strReplace j "_FK_jnt" "" ++ "_CTRL") j],
             ctr := h.ctr }) := by
        rw [hpj] at hpjstep
        simp [fkCtrlStep, Host.doCmd, Host.emit, hpjstep]
      obtain ⟨rb', h', hloop, hmono, hpar⟩ := ih (seen ++ [j])
        { fk_ctrls := dictSet rb.fk_ctrls (strReplace j "_FK_jnt" "")
            (strReplace j "_FK_jnt" "" ++ "_CTRL") }
        { scene := ((((h.scene.addNode
            ⟨strReplace j "_FK_jnt" "" ++ "_CTRL", "transform", none, none⟩).addNode
            ⟨strReplace j "_FK_jnt" "" ++ "_offset", "transform", none, none⟩).setParent
            (strReplace j "_FK_jnt" "" ++ "_CTRL")
            (some (strReplace j "_FK_jnt" "" ++ "_offset"))).addNode
            ⟨strReplace j "_FK_jnt" "" ++ "_GRP", "transform", none, none⟩).setParent
            (strReplace j "_FK_jnt" "" ++ "_offset")
            (some (strReplace j "_FK_jnt" "" ++ "_GRP")),
          trace := h.trace ++
            [.circleCmd (strReplace j "_FK_jnt" "" ++ "_CTRL"),
             .groupCmd (strReplace j "_FK_jnt" "" ++ "_CTRL")
               (strReplace j "_FK_jnt" "" ++ "_offset"),
             .groupCmd (strReplace j "_FK_jnt" "" ++ "_offset")
               (strReplace j "_FK_jnt" "" ++ "_GRP"),
             .matchTransformCmd (strReplace j "_FK_jnt" "" ++ "_GRP") j,
             .parentConstraintCmd (strReplace j "_FK_jnt" "" ++ "_CTRL") j],
          ctr := h.ctr } hl0' hpf'
        (by
          intro j' hj'
          have hc2 := hcl j' hj' j hjmem
          dsimp only
          rw [hblock j' hc2.1 hc2.2.1]
          exact hinv j' hj')
        (by
          intro q hq
          rcases List.mem_append.mp hq with hq1 | hq2
          · dsimp only
            rw [dictGet_dictSet]
            split
            · rename_i heq
              rw [heq]
            · exact hdict q hq1
          · have hqj : q = j := by simpa using hq2
            subst hqj
            dsimp only
            rw [dictGet_dictSet]
            simp)
      refine ⟨rb', h', ?_, ?_, ?_⟩
      · rw [fkCtrlLoop, hstep]
        exact hloop
      · intro c hc
        apply hmono
        simp [hc]
      · intro j2 hj2 p2 hp2
        rcases List.mem_cons.mp hj2 with hj2a | hj2a
        · rw [hj2a] at hp2
          rw [hp2] at hpj
          cases hpj
        · exact hpar j2 hj2a p2 hp2
    | some p =>
      have hpmem : p ∈ seen := by
        simp only [parentsFirstAux, Bool.and_eq_true, hpj] at hpf
        have := hpf.1
        simpa using this
      have hpc := hdict p hpmem
      have hstep : fkCtrlStep rb f j h = .ok
          ({ fk_ctrls := dictSet rb.fk_ctrls (strReplace j "_FK_jnt" "")
              (strReplace j "_FK_jnt" "" ++ "_CTRL") },
           { scene := (((((h.scene.addNode
               ⟨strReplace j "_FK_jnt" "" ++ "_CTRL", "transform", none, none⟩).addNode
               ⟨strReplace j "_FK_jnt" "" ++ "_offset", "transform", none, none⟩).setParent
               (strReplace j "_FK_jnt" "" ++ "_CTRL")
               (some (strReplace j "_FK_jnt" "" ++ "_offset"))).addNode
               ⟨strReplace j "_FK_jnt" "" ++ "_GRP", "transform", none, none⟩).setParent
               (strReplace j "_FK_jnt" "" ++ "_offset")
               (some (strReplace j "_FK_jnt" "" ++ "_GRP"))).setParent
               (strReplace j "_FK_jnt" "" ++ "_GRP")
               (some (strReplace p "_FK_jnt" "" ++ "_CTRL")),
             trace := h.trace ++
               [.circleCmd (strReplace j "_FK_jnt" "" ++ "_CTRL"),
                .groupCmd (strReplace j "_FK_jnt" "" ++ "_CTRL")
                  (strReplace j "_FK_jnt" "" ++ "_offset"),
                .groupCmd (strReplace j "_FK_jnt" "" ++ "_offset")
                  (strReplace j "_FK_jnt" "" ++ "_GRP"),
                .matchTransformCmd (strReplace j "_FK_jnt" "" ++ "_GRP") j,
                .parentConstraintCmd (strReplace j "_FK_jnt" "" ++ "_CTRL") j,
                .parentCmd (strReplace j "_FK_jnt" "" ++ "_GRP")
                  (strReplace p "_FK_jnt" "" ++ "_CTRL")],
             ctr := h.ctr + 1 }) := by
        rw [hpj] at hpjstep
        simp [fkCtrlStep, Host.doCmd, Host.emit, Host.tryCmd, hf, hpjstep, hpc]
      obtain ⟨rb', h', hloop, hmono, hpar⟩ := ih (seen ++ [j])
        { fk_ctrls := dictSet rb.fk_ctrls (strReplace j "_FK_jnt" "")
            (strReplace j "_FK_jnt" "" ++ "_CTRL") }
        { scene := (((((h.scene.addNode
            ⟨strReplace j "_FK_jnt" "" ++ "_CTRL", "transform", none, none⟩).addNode
            ⟨strReplace j "_FK_jnt" "" ++ "_offset", "transform", none, none⟩).setParent
            (strReplace j "_FK_jnt" "" ++ "_CTRL")
            (some (strReplace j "_FK_jnt" "" ++ "_offset"))).addNode
            ⟨strReplace j "_FK_jnt" "" ++ "_GRP", "transform", none, none⟩).setParent
            (strReplace j "_FK_jnt" "" ++ "_offset")
            (some (strReplace j "_FK_jnt" "" ++ "_GRP"))).setParent
            (strReplace j "_FK_jnt" "" ++ "_GRP")
            (some (strReplace p "_FK_jnt" "" ++ "_CTRL")),
          trace := h.trace ++
            [.circleCmd (strReplace j "_FK_jnt" "" ++ "_CTRL"),
             .groupCmd (strReplace j "_FK_jnt" "" ++ "_CTRL")
               (strReplace j "_FK_jnt" "" ++ "_offset"),
             .groupCmd (strReplace j "_FK_jnt" "" ++ "_offset")
               (strReplace j "_FK_jnt" "" ++ "_GRP"),
             .matchTransformCmd (strReplace j "_FK_jnt" "" ++ "_GRP") j,
             .parentConstraintCmd (strReplace j "_FK_jnt" "" ++ "_CTRL") j,
             .parentCmd (strReplace j "_FK_jnt" "" ++ "_GRP")
               (strReplace p "_FK_jnt" "" ++ "_CTRL")],
          ctr := h.ctr + 1 } hl0' hpf'
        (by
          intro j' hj'
          have hc2 := hcl j' hj' j hjmem
          dsimp only
          rw [parentJoint_setParent _ _ _ _ hc2.2.2, hblock j' hc2.1 hc2.2.1]
          exact hinv j' hj')
        (by
          intro q hq
          rcases List.mem_append.mp hq with hq1 | hq2
          · dsimp only
            rw [dictGet_dictSet]
            split
            · rename_i heq
              rw [heq]
            · exact hdict q hq1
          · have hqj : q = j := by simpa using hq2
            subst hqj
            dsimp only
            rw [dictGet_dictSet]
            simp)
      refine ⟨rb', h', ?_, ?_, ?_⟩
      · rw [fkCtrlLoop, hstep]
        exact hloop
      · intro c hc
        apply hmono
        simp [hc]
      · intro j2 hj2 p2 hp2
        rcases List.mem_cons.mp hj2 with hj2a | hj2a
        · subst hj2a
          rw [hp2] at hpj
          cases hpj
          apply hmono
          simp
        · exact hpar j2 hj2a p2 hp2

/-- C10: the FK control loop processes the root-appended, reversed
descendant list (first conjunct restates lines 71-73), and whenever that
order lists every parent before its children, by the time a joint is
processed its parent base is bound in fk_ctrls, so the joint's control
group is parented under its parent joint's control - the parent command
appears in the trace for every joint that has a parent joint. -/
theorem claim_C10_fk_processing_order :
    (∀ s : Scene, fkJointsOf s =
      (((s.listRelAD "spine_FK_jnt" "joint").getD []) ++ ["spine_FK_jnt"]).reverse) ∧
    (∀ f : Oracle, (∀ n, f n = false) →
      ∀ (l : List String) (rb : RigBuilder) (h : Host),
        noClash l →
        parentsFirstAux h.scene [] l = true →
        ∃ (rb' : RigBuilder) (h' : Host),
          fkCtrlLoop f rb l h = .ok (rb', h') ∧
          ∀ j ∈ l, ∀ p, h.scene.parentJoint j = some p →
            Cmd.parentCmd (strReplace j "_FK_jnt" "" ++ "_GRP")
              (strReplace p "_FK_jnt" "" ++ "_CTRL") ∈ h'.trace) := by
  refine ⟨fun s => rfl, ?_⟩
  intro f hf l rb h hcl hpf
  obtain ⟨rb', h', hloop, _, hpar⟩ :=
    fkCtrlLoop_parents f hf h.scene l hcl l [] rb h rfl hpf
      (fun j _ => rfl) (fun q hq => absurd hq (List.not_mem_nil q))
  exact ⟨rb', h', hloop, hpar⟩

/-- Witness for C10 on the two-joint FK chain in root-first order. -/
theorem claim_C10_witness :
    noClash ["spine_FK_jnt", "hip_FK_jnt1"] ∧
    parentsFirstAux hostFk.scene [] ["spine_FK_jnt", "hip_FK_jnt1"] = true ∧
    (∃ (rb' : RigBuilder) (h' : Host),
      fkCtrlLoop oracle0 {} ["spine_FK_jnt", "hip_FK_jnt1"] hostFk = .ok (rb', h') ∧
      ∀ j ∈ ["spine_FK_jnt", "hip_FK_jnt1"], ∀ p,
        hostFk.scene.parentJoint j = some p →
        Cmd.parentCmd (strReplace j "_FK_jnt" "" ++ "_GRP")
          (strReplace p "_FK_jnt" "" ++ "_CTRL") ∈ h'.trace) :=
  ⟨by decide, by decide,
   claim_C10_fk_processing_order.2 oracle0 (fun _ => rfl)
     ["spine_FK_jnt", "hip_FK_jnt1"] {} hostFk (by decide) (by decide)⟩

/-! ## C8 (amended): RigBuilder state -/

/-- A successful FK control step binds the joint base to its control in
fk_ctrls. -/
theorem fkCtrlStep_dict (rb : RigBuilder) (f : Oracle) (j : String) (h : Host)
    (rb1 : RigBuilder) (h1 : Host)
    (he : fkCtrlStep rb f j h = .ok (rb1, h1)) :
    rb1.fk_ctrls = dictSet rb.fk_ctrls (strReplace j "_FK_jnt" "")
      (strReplace j "_FK_jnt" "" ++ "_CTRL") := by
  simp only [fkCtrlStep] at he
  split at he
  · cases he
    rfl
  · cases he

/-- The FK control loop folds a dictSet over the processed joints: each
processed joint leaves its base bound to its control name. -/
theorem fkCtrlLoop_dict (f : Oracle) :
    ∀ (l : List String) (rb : RigBuilder) (h : Host) (rb' : RigBuilder)
      (h' : Host),
      fkCtrlLoop f rb l h = .ok (rb', h') →
      rb'.fk_ctrls = l.foldl (fun d j =>
        dictSet d (strReplace j "_FK_jnt" "")
          (strReplace j "_FK_jnt" "" ++ "_CTRL")) rb.fk_ctrls := by
  intro l
  induction l with
  | nil =>
    intro rb h rb' h' he
    simp only [fkCtrlLoop] at he
    cases he
    rfl
  | cons j rest ih =>
    intro rb h rb' h' he
    simp only [fkCtrlLoop] at he
    split at he
    · rename_i rb1 h1 heq
      rw [List.foldl_cons, ← fkCtrlStep_dict rb f j h rb1 h1 heq]
      exact ih rb1 h1 rb' h' he
    · cases he

/-- create_ik_setup neither reads nor writes any RigBuilder field: the
manager comes back unchanged on every successful run. -/
theorem create_ik_setup_rb (rb : RigBuilder) (f : Oracle) (h : Host)
    (r : RigBuilder × Host) (he : create_ik_setup rb f h = .ok r) :
    r.1 = rb := by
  simp only [create_ik_setup] at he
  split at he
  · cases he
    rfl
  · split at he
    · cases he
    · split at he
      · cases he
      · split at he
        · cases he
        · split at he
          · cases he
          · cases he
            rfl

/-- C8 (amended): the managers other than RigBuilder hold no mutable
state, and create_ik_setup returns its manager unchanged; but
RigBuilder.create_fk_chain records every processed joint's control in
self.fk_ctrls (the dictSet fold), this state persists across invocations,
and it is observable: the same control-loop run parents the new group
under the stale control when fk_ctrls already binds the parent base, and
issues no such command from a fresh manager. -/
theorem claim_C8_manager_state :
    (∀ (f : Oracle) (l : List String) (rb : RigBuilder) (h : Host)
        (rb' : RigBuilder) (h' : Host),
      fkCtrlLoop f rb l h = .ok (rb', h') →
      rb'.fk_ctrls = l.foldl (fun d j =>
        dictSet d (strReplace j "_FK_jnt" "")
          (strReplace j "_FK_jnt" "" ++ "_CTRL")) rb.fk_ctrls) ∧
    (∀ (rb : RigBuilder) (f : Oracle) (h : Host) (r : RigBuilder × Host),
      create_ik_setup rb f h = .ok r → r.1 = rb) ∧
    Cmd.parentCmd "hip1_GRP" "STALE_CTRL" ∈ staleRunTrace ∧
    freshRunTrace.countP isParentCmd = 0 := by
  refine ⟨fun f l rb h rb' h' he => fkCtrlLoop_dict f l rb h rb' h' he,
    fun rb f h r he => create_ik_setup_rb rb f h r he, by decide, by decide⟩

/-- Witness for the amended C8: a concrete successful loop run whose
resulting dictionary is the recorded fold. -/
theorem claim_C8_witness :
    (∃ (rb' : RigBuilder) (h' : Host),
      fkCtrlLoop oracle0 { fk_ctrls := [] } ["hip_FK_jnt1"] hostFk = .ok (rb', h') ∧
      rb'.fk_ctrls = [("hip1", "hip1_CTRL")]) ∧
    (∃ r, create_ik_setup {} oracle0 hostSkel = .ok r ∧ r.1 = ({} : RigBuilder)) := by
  constructor
  · refine ⟨{ fk_ctrls := [("hip1", "hip1_CTRL")] }, _, rfl, ?_⟩
    have := claim_C8_manager_state.1 oracle0 ["hip_FK_jnt1"]
      { fk_ctrls := [] } hostFk { fk_ctrls := [("hip1", "hip1_CTRL")] } _ rfl
    exact this
  · refine ⟨_, rfl, ?_⟩
    exact claim_C8_manager_state.2.1 {} oracle0 hostSkel _ rfl

/-! ## C4: the suffix naming convention -/

/-- The FK child-rename loop issues exactly one rename per listed joint,
substituting _FK_jnt for _drv_jnt in its name. -/
theorem renameFkChildren_trace (f : Oracle) :
    ∀ (js : List String) (h h' : Host),
      renameFkChildren f js h = .ok h' →
      h'.trace = h.trace ++ js.map (fun j =>
        .renameCmd j (strReplace j "_drv_jnt" "_FK_jnt")) := by
  intro js
  induction js with
  | nil =>
    intro h h' he
    simp only [renameFkChildren] at he
    cases he
    simp
  | cons j rest ih =>
    intro h h' he
    cases hf : f h.ctr with
    | true =>
      simp only [renameFkChildren, Host.tryCmd, hf, if_true] at he
      cases he
    | false =>
      simp only [renameFkChildren, Host.tryCmd, hf, Bool.false_eq_true,
        if_false] at he
      rw [ih _ _ he]
      simp

/-- The IK rename loop issues exactly one rename per listed joint,
substituting _IK_jnt for _drv_jnt in its name. -/
theorem renameIkJoints_trace (f : Oracle) :
    ∀ (js : List String) (h h' : Host),
      renameIkJoints f js h = .ok h' →
      h'.trace = h.trace ++ js.map (fun j =>
        .renameCmd j (strReplace j "_drv_jnt" "_IK_jnt")) := by
  intro js
  induction js with
  | nil =>
    intro h h' he
    simp only [renameIkJoints] at he
    cases he
    simp
  | cons j rest ih =>
    intro h h' he
    cases hf : f h.ctr with
    | true =>
      simp only [renameIkJoints, Host.tryCmd, hf, if_true] at he
      cases he
    | false =>
      simp only [renameIkJoints, Host.tryCmd, hf, Bool.false_eq_true,
        if_false] at he
      rw [ih _ _ he]
      simp

/-- C4: joint_creation creates and returns a joint named name +
"_drv_jnt" (first two conjuncts); create_fk_chain renames every
duplicated joint by substituting _FK_jnt for the _drv_jnt part of its
name and create_ik_setup likewise with _IK_jnt (next two conjuncts, over
the rename loops); concretely on the two-joint skeleton the recorded
renames are the explicit root rename to spine_FK_jnt / spine_IK_jnt plus
the substitution on the digit-suffixed duplicate child names, and the
renamed roots exist in the resulting scene (remaining conjuncts). -/
theorem claim_C4_suffix_naming :
    (∀ (f : Oracle) (name : String) (pos : Rat × Rat × Rat) (h : Host),
      ∃ h', joint_creation f name pos none h = .ok (h', name ++ "_drv_jnt") ∧
        h'.scene.objExists (name ++ "_drv_jnt") = true) ∧
    (∀ (f : Oracle) (name : String) (pos : Rat × Rat × Rat)
        (pn : Option String) (h h' : Host) (j : String),
      joint_creation f name pos pn h = .ok (h', j) → j = name ++ "_drv_jnt") ∧
    (∀ (f : Oracle) (js : List String) (h h' : Host),
      renameFkChildren f js h = .ok h' →
      h'.trace = h.trace ++ js.map (fun j =>
        .renameCmd j (strReplace j "_drv_jnt" "_FK_jnt"))) ∧
    (∀ (f : Oracle) (js : List String) (h h' : Host),
      renameIkJoints f js h = .ok h' →
      h'.trace = h.trace ++ js.map (fun j =>
        .renameCmd j (strReplace j "_drv_jnt" "_IK_jnt"))) ∧
    fkSkelRenames = [.renameCmd "spine_drv_jnt1" "spine_FK_jnt",
      .renameCmd "hip_drv_jnt1" "hip_FK_jnt1"] ∧
    ikSkelRenames = [.renameCmd "spine_drv_jnt1" "spine_IK_jnt",
      .renameCmd "hip_drv_jnt1" "hip_IK_jnt1",
      .renameCmd "spine_IK_jnt" "spine_IK_jnt"] ∧
    fkSceneAfterSkel.objExists "spine_FK_jnt" = true ∧
    fkSceneAfterSkel.objExists "hip_FK_jnt1" = true ∧
    ikSceneAfterSkel.objExists "spine_IK_jnt" = true ∧
    ikSceneAfterSkel.objExists "hip_IK_jnt1" = true := by
  refine ⟨?_, ?_, renameFkChildren_trace, renameIkJoints_trace,
    by rfl, by rfl, by rfl, by rfl, by rfl, by rfl⟩
  · intro f name pos h
    refine ⟨_, rfl, ?_⟩
    simp [joint_creation, Host.doCmd, Host.emit, Scene.objExists, Scene.addNode]
  · intro f name pos pn h h' j he
    simp only [joint_creation] at he
    split at he
    · split at he
      · cases he
        rfl
      · cases he
    · cases he
      rfl

/-- Witness for C4: a concrete joint creation and one concrete run of
each rename loop. -/
theorem claim_C4_witness :
    (∃ h', joint_creation oracle0 "spine" (0, 0, 0) none host0 =
        .ok (h', "spine" ++ "_drv_jnt") ∧
      h'.scene.objExists ("spine" ++ "_drv_jnt") = true) ∧
    fkRenameRunHost.trace = host0.trace ++
      (["hip_drv_jnt1"].map fun j =>
        Cmd.renameCmd j (strReplace j "_drv_jnt" "_FK_jnt")) ∧
    ikRenameRunHost.trace = host0.trace ++
      (["hip_drv_jnt1"].map fun j =>
        Cmd.renameCmd j (strReplace j "_drv_jnt" "_IK_jnt")) :=
  ⟨claim_C4_suffix_naming.1 oracle0 "spine" (0, 0, 0) host0,
   claim_C4_suffix_naming.2.2.1 oracle0 ["hip_drv_jnt1"] host0 fkRenameRunHost rfl,
   claim_C4_suffix_naming.2.2.2.1 oracle0 ["hip_drv_jnt1"] host0 ikRenameRunHost rfl⟩

end AutoRig
